import Mathlib

/-!
# Admittance controller: embedding of the control loop and its lifecycle callbacks

Sources embedded here:
* `src/src/admittance_controller.cpp` (`AdmittanceController`)
* `src/include/rl_differential_ik_plugin/rl_kinematics.hpp` (`RLKinematics::update_robot_state`)

Conventions of the embedding.
* A `double` is a `Scalar`: the controller only copies such values and tests them with
  `std::isnan`, so a value is either `nan` or a number.
* A `std::vector` is a `List`. `v[i]` with `i ≥ v.size()` is undefined behaviour in C++;
  the embedding makes it explicit: the operation yields no value and the run stops there.
* A `std::reference_wrapper` to a loaned interface is the index of that interface in
  `command_interfaces_` / `state_interfaces_`.
* A `std::shared_ptr` to a trajectory message is an optional address into the message store
  `msgs`; two pointers are equal exactly when the addresses are (pointer comparison).
* Member functions that are declared outside the two source files are parameters (`Env`).
-/

namespace AdmittanceController

/-- A `double`: copied around and tested with `std::isnan`, never computed with. -/
inductive Scalar where
  | nan
  | num (v : Int)
deriving DecidableEq, Repr

/-- The test `std::isnan`. -/
def Scalar.isnan : Scalar → Bool
  | .nan => true
  | .num _ => false

/-- The message type `trajectory_msgs::msg::JointTrajectoryPoint`. -/
structure JointTrajectoryPoint where
  positions : List Scalar
  velocities : List Scalar
  accelerations : List Scalar
  effort : List Scalar
  time_from_start_sec : Int
  time_from_start_nanosec : Nat
deriving DecidableEq, Repr

/-- The message type `trajectory_msgs::msg::JointTrajectory`. -/
structure JointTrajectory where
  stamp_sec : Int
  stamp_nanosec : Nat
  joint_names : List String
  points : List JointTrajectoryPoint
deriving DecidableEq, Repr

/-- A `std::shared_ptr<JointTrajectory>`: `none` is the null pointer. -/
abbrev MsgPtr := Option Nat

/-- A loaned hardware interface (command or state): its full name and the value it holds. -/
structure LoanedInterface where
  name : String
  value : Scalar
deriving DecidableEq, Repr

/-- The sampler `joint_trajectory_controller::Trajectory`: it tracks one message. -/
structure Trajectory where
  trajectory_msg : MsgPtr
deriving DecidableEq, Repr

/-- The member `traj_point_active_ptr_`: null, or the address of one of the two samplers. -/
inductive ActivePtr where
  | null
  | external
  | home
deriving DecidableEq, Repr

/-- A force/torque reading `geometry_msgs::msg::Wrench`: six scalars. -/
abbrev Wrench := List Scalar

/-- The integrator state owned by `AdmittanceRule`. -/
structure AdmittanceRule where
  admittance_position : List Scalar
  admittance_velocity : List Scalar
deriving DecidableEq, Repr

/-- The semantic component `semantic_components::ForceTorqueSensor`. -/
structure ForceTorqueSensor where
  name : String
  assigned : List Nat
deriving DecidableEq, Repr

/-- A joint limiter plugin instance. -/
structure JointLimiter where
  kind : String
deriving DecidableEq, Repr

/-- One entry of `SegmentTolerances`. -/
structure StateTolerances where
  position : Scalar
  velocity : Scalar
  acceleration : Scalar
deriving DecidableEq, Repr

/-- The type `joint_trajectory_controller::SegmentTolerances`. -/
structure SegmentTolerances where
  state_tolerance : List StateTolerances
  goal_state_tolerance : List StateTolerances
  goal_time_tolerance : Scalar
deriving DecidableEq, Repr

/-- The message `control_msgs::msg::AdmittanceControllerState` as far as the controller fills it. -/
structure ControllerStateMsg where
  joint_names : List String
  input_joint_command : JointTrajectory
  desired_joint_state : JointTrajectoryPoint
  actual_joint_state : JointTrajectoryPoint
  error_joint_state : JointTrajectoryPoint
  rule_state : Option AdmittanceRule
deriving DecidableEq, Repr

/-- The three command mailboxes and the state publisher (`rtBuffers`). -/
structure RtBuffers where
  input_traj_command : MsgPtr
  input_wrench_command_ : Option Nat
  input_pose_command_ : Option Nat
  state_publisher_ : Option ControllerStateMsg
deriving DecidableEq, Repr

/-- The lifecycle states of the controller node. -/
inductive LifecycleState where
  | Unconfigured
  | Inactive
  | Active
  | CleaningUp
  | ErrorHandling
  | Finalized
deriving DecidableEq, Repr

/-- The result `controller_interface::return_type`. -/
inductive return_type where
  | OK
  | ERROR
deriving DecidableEq, Repr

/-- The result `LifecycleNodeInterface::CallbackReturn`. -/
inductive CallbackReturn where
  | SUCCESS
  | FAILURE
  | ERROR
deriving DecidableEq, Repr

/-- Calls on collaborators that the controller makes, in the order it makes them. -/
inductive Event where
  | traj_buffer_read
  | trajectory_update (msg : Nat)
  | read_state_from_hardware
  | read_state_from_command_interfaces
  | admittance_reset
  | admittance_update (rule : AdmittanceRule) (current : JointTrajectoryPoint) (ft : Wrench)
      (reference : JointTrajectoryPoint) (period : Int)
  | enforce_limits
  | action_server_update (before_last_point abort outside_goal_state_tolerance : Bool)
  | state_published (msg : ControllerStateMsg)
  | create_action_server
  | controller_reset
deriving DecidableEq, Repr

/-- The members of `AdmittanceController`, the message store and the call record. -/
structure Controller where
  joint_names_ : List String
  command_interface_types_ : List String
  state_interface_types_ : List String
  ft_sensor_name_ : String
  joint_limiter_type_ : String
  use_joint_commands_as_input_ : Bool
  allow_partial_joints_goal_ : Bool
  allow_integration_in_goal_trajectories_ : Bool
  action_monitor_rate : Scalar
  num_joints_ : Nat
  controller_is_active_ : Bool
  subscriber_is_active_ : Bool
  command_interfaces_ : List LoanedInterface
  state_interfaces_ : List LoanedInterface
  joint_position_state_interface_ : List Nat
  joint_velocity_state_interface_ : List Nat
  joint_acceleration_state_interface_ : List Nat
  joint_position_command_interface_ : List Nat
  joint_velocity_command_interface_ : List Nat
  joint_acceleration_command_interface_ : List Nat
  joint_effort_command_interface_ : List Nat
  last_commanded_state_ : JointTrajectoryPoint
  last_state_reference_ : JointTrajectoryPoint
  state_reference : JointTrajectoryPoint
  state_current : JointTrajectoryPoint
  state_desired : JointTrajectoryPoint
  state_error : JointTrajectoryPoint
  pre_admittance_point : JointTrajectory
  traj_msg_home_ptr_ : MsgPtr
  traj_external_point_ptr_ : Option Trajectory
  traj_home_point_ptr_ : Option Trajectory
  traj_point_active_ptr_ : ActivePtr
  traj_command_msg : MsgPtr
  pose_command_msg : Option Nat
  wrench_msg : Option Nat
  rtBuffers : RtBuffers
  admittance_ : Option AdmittanceRule
  joint_limiter_ : Option JointLimiter
  force_torque_sensor_ : Option ForceTorqueSensor
  default_tolerances_ : SegmentTolerances
  last_state_publish_time_ : Int
  msgs : Nat → JointTrajectory
  next_addr : Nat
  events : List Event

/-- What `sample_trajectory` hands back: the validity flag, the sampled state and the two
segment iterators (positions in the tracked message, `none` for an iterator never set). -/
structure Sample where
  valid : Bool
  state : JointTrajectoryPoint
  start_segment_itr : Option Nat
  end_segment_itr : Option Nat
deriving DecidableEq, Repr

/-- The members and helpers used by the two source files but declared elsewhere. -/
structure Env where
  fill_partial_goal : JointTrajectory → List String → List Nat → List LoanedInterface →
    JointTrajectory
  sort_to_local_joint_order : JointTrajectory → List String → JointTrajectory
  have_trajectory : Controller → Bool
  sample_trajectory : Controller → Int → JointTrajectoryPoint → Sample
  is_before_last_point : Controller → Option Nat → Bool
  check_state_tolerance_per_joint : JointTrajectoryPoint → Nat → StateTolerances → Bool → Bool
  get_values_as_message : ForceTorqueSensor → List LoanedInterface → Wrench
  admittance_update : AdmittanceRule → JointTrajectoryPoint → Wrench → JointTrajectoryPoint →
    Int → JointTrajectoryPoint → AdmittanceRule × JointTrajectoryPoint
  admittance_get_parameters : AdmittanceRule → Bool
  admittance_configure : AdmittanceRule → AdmittanceRule
  admittance_get_controller_state : AdmittanceRule → ControllerStateMsg → ControllerStateMsg
  enforce_limits : JointLimiter → Int → JointTrajectoryPoint → JointTrajectoryPoint
  resize_joint_trajectory_point : JointTrajectoryPoint → Nat → Bool → Bool → JointTrajectoryPoint
  get_segment_tolerances : List String → SegmentTolerances
  assign_loaned_state_interfaces : ForceTorqueSensor → List LoanedInterface → ForceTorqueSensor
  filter_chain_throws : Bool
  allowed_command_interface_types_ : List String
  allowed_state_interface_types_ : List String
  now : Int
  reset : Controller → Bool × Controller
  get_state_interface_names : ForceTorqueSensor → List String

/-- The outcome of running a piece of the controller: `ret = none` when the run reached an
operation whose behaviour C++ leaves undefined (`ctrl` is then the state at that operation),
otherwise the returned value and the state on return. -/
structure Outcome (ρ : Type) where
  ret : Option ρ
  ctrl : Controller

/-- Sequencing: continue with `f` unless the run already stopped. -/
def Outcome.andThen {ρ σ : Type} (o : Outcome ρ) (f : ρ → Controller → Outcome σ) : Outcome σ :=
  match o.ret with
  | none => ⟨none, o.ctrl⟩
  | some r => f r o.ctrl

/-- The assignment `v[i] = x` of `std::vector::operator[]`: defined only for `i < v.size()`. -/
def vec_write {α : Type} (v : List α) (i : Nat) (x : α) : Option (List α) :=
  if i < v.length then some (v.set i x) else none

/-- Following a `reference_wrapper` kept at position `i` of `refs` to the interface it names. -/
def deref (ifaces : List LoanedInterface) (refs : List Nat) (i : Nat) : Option LoanedInterface :=
  match refs[i]? with
  | none => none
  | some k => ifaces[k]?

/-- The loop `for (i = 0; i < refs.size(); i++) field[i] = refs[i].get().get_value();`
with `k` iterations left at index `i`. The flag is `false` when an access was out of bounds;
the vector is the field at the end of the loop or at that access. -/
def assign_from_interfaces (ifaces : List LoanedInterface) (refs : List Nat) :
    Nat → Nat → List Scalar → Bool × List Scalar
  | 0, _, v => (true, v)
  | k + 1, i, v =>
    match deref ifaces refs i with
    | none => (false, v)
    | some itf =>
      match vec_write v i itf.value with
      | none => (false, v)
      | some w => assign_from_interfaces ifaces refs k (i + 1) w

/-- The loop of `read_state_from_command_interfaces`: as `assign_from_interfaces`, and after
each assignment `if (std::isnan(field[i])) { field.clear(); break; }`. -/
def assign_from_commands (ifaces : List LoanedInterface) (refs : List Nat) :
    Nat → Nat → List Scalar → Bool × List Scalar
  | 0, _, v => (true, v)
  | k + 1, i, v =>
    match deref ifaces refs i with
    | none => (false, v)
    | some itf =>
      match vec_write v i itf.value with
      | none => (false, v)
      | some w =>
        match w[i]? with
        | none => (false, w)
        | some x => if x.isnan then (true, []) else assign_from_commands ifaces refs k (i + 1) w

/-- The member `AdmittanceController::read_state_from_hardware`. The flag is `false` when the
run reached an out-of-bounds access; the point is `state` on return or at that access. -/
def read_state_from_hardware (c : Controller) (state : JointTrajectoryPoint) :
    Bool × JointTrajectoryPoint :=
  let s0 := { state with positions := [], velocities := [], accelerations := [] }
  let p := assign_from_interfaces c.state_interfaces_ c.joint_position_state_interface_
    c.joint_position_state_interface_.length 0 s0.positions
  let s1 := { s0 with positions := p.2 }
  if p.1 = false then (false, s1) else
  let v := assign_from_interfaces c.state_interfaces_ c.joint_velocity_state_interface_
    c.joint_velocity_state_interface_.length 0 s1.velocities
  let s2 := { s1 with velocities := v.2 }
  if v.1 = false then (false, s2) else
  let a := assign_from_interfaces c.state_interfaces_ c.joint_acceleration_state_interface_
    c.joint_acceleration_state_interface_.length 0 s2.accelerations
  (a.1, { s2 with accelerations := a.2 })

/-- The member `AdmittanceController::read_state_from_command_interfaces`. -/
def read_state_from_command_interfaces (c : Controller) (output_state : JointTrajectoryPoint) :
    Bool × JointTrajectoryPoint :=
  let s0 := { output_state with positions := [], velocities := [], accelerations := [] }
  let p := assign_from_commands c.command_interfaces_ c.joint_position_command_interface_
    c.joint_position_command_interface_.length 0 s0.positions
  let s1 := { s0 with positions := p.2 }
  if p.1 = false then (false, s1) else
  let v := assign_from_commands c.command_interfaces_ c.joint_velocity_command_interface_
    c.joint_velocity_command_interface_.length 0 s1.velocities
  let s2 := { s1 with velocities := v.2 }
  if v.1 = false then (false, s2) else
  let a := assign_from_commands c.command_interfaces_ c.joint_acceleration_command_interface_
    c.joint_acceleration_command_interface_.length 0 s2.accelerations
  (a.1, { s2 with accelerations := a.2 })

/-! ## `AdmittanceController::update` -/

/-- Lines 166-172 of `update`: the message tracked by the external sampler is compared with
the message just read from the trajectory mailbox (pointer comparison); when they differ the
mailbox message is completed and reordered in place and handed to the sampler. -/
def update_trajectory (env : Env) (sampler : Trajectory) (c : Controller) : Outcome Unit :=
  if sampler.trajectory_msg ≠ c.traj_command_msg then
    match c.traj_command_msg with
    | none => ⟨none, c⟩
    | some a =>
      ⟨some (), { c with
        msgs := fun b =>
          if b = a then
            env.sort_to_local_joint_order
              (env.fill_partial_goal (c.msgs a) c.joint_names_ c.joint_position_command_interface_
                c.command_interfaces_)
              c.joint_names_
          else c.msgs b,
        traj_external_point_ptr_ := some { sampler with trajectory_msg := some a },
        events := c.events ++ [Event.trajectory_update a] }⟩
  else ⟨some (), c⟩

/-- Lines 173-177 of `update`: the pose and wrench mailboxes are drained. -/
def update_drain (c : Controller) : Controller :=
  { c with
    pose_command_msg := c.rtBuffers.input_pose_command_,
    wrench_msg := c.rtBuffers.input_wrench_command_,
    state_current := { c.state_current with time_from_start_sec := 0 } }

/-- Lines 163-177 of `update`: the sensing part. The trajectory mailbox is read, the tracked
trajectory replaced when the mailbox holds another message, the other mailboxes drained. -/
def update_sense (env : Env) (c : Controller) : Outcome Unit :=
  match c.traj_external_point_ptr_ with
  | none => ⟨none, c⟩
  | some sampler =>
    (update_trajectory env sampler
      { c with traj_command_msg := c.rtBuffers.input_traj_command,
               events := c.events ++ [Event.traj_buffer_read] }).andThen fun _ c2 =>
    ⟨some (), update_drain c2⟩

/-- Lines 182-185 of `update`: the measured state and the force/torque reading. -/
def update_read (env : Env) (c : Controller) : Outcome Wrench :=
  let r := read_state_from_hardware c c.state_current
  let c1 := { c with state_current := r.2, events := c.events ++ [Event.read_state_from_hardware] }
  if r.1 = false then ⟨none, c1⟩ else
  match c1.force_torque_sensor_ with
  | none => ⟨none, c1⟩
  | some fts =>
    ⟨some (env.get_values_as_message fts c1.state_interfaces_),
     { c1 with state_current := { c1.state_current with time_from_start_sec := 0 } }⟩

/-- The sample taken at lines 189-194 of `update`: no sample when there is no trajectory. -/
def update_sample (env : Env) (time : Int) (c : Controller) : Sample :=
  if env.have_trajectory c then env.sample_trajectory c time c.state_reference
  else ⟨false, c.state_reference, none, none⟩

/-- Lines 186-201 of `update`: the reference state of the cycle. The value returned is the
pair of segment iterators. -/
def update_reference (env : Env) (time : Int) (c : Controller) :
    Outcome (Option Nat × Option Nat) :=
  let s := update_sample env time c
  let c1 := { c with state_reference := s.state }
  let c2 := if s.valid then { c1 with last_state_reference_ := c1.state_reference }
            else { c1 with state_reference := c1.last_state_reference_ }
  match vec_write c2.pre_admittance_point.points 0 c2.state_reference with
  | none => ⟨none, c2⟩
  | some pts =>
    ⟨some (s.start_segment_itr, s.end_segment_itr),
     { c2 with pre_admittance_point := { c2.pre_admittance_point with points := pts } }⟩

/-- Lines 206-209 of `update`: the admittance rule, then the joint limiter when there is one. -/
def update_command (env : Env) (period : Int) (ft_values : Wrench) (c : Controller) :
    Outcome Unit :=
  match c.admittance_ with
  | none => ⟨none, c⟩
  | some rule =>
    let r := env.admittance_update rule c.state_current ft_values c.state_reference period
      c.state_desired
    let c1 := { c with
      admittance_ := some r.fst,
      state_desired := r.snd,
      events := c.events ++
        [Event.admittance_update rule c.state_current ft_values c.state_reference period] }
    match c1.joint_limiter_ with
    | none => ⟨some (), c1⟩
    | some lim =>
      ⟨some (), { c1 with state_desired := env.enforce_limits lim period c1.state_desired,
                          events := c1.events ++ [Event.enforce_limits] }⟩

/-- One of the three loops at lines 214-222 of `update`:
`for (i = 0; i < joint_position_state_interface_.size(); i++) refs[i].get().set_value(vals[i]);`
with `k` iterations left at index `i`, acting on the loaned command interfaces. -/
def write_loop (refs : List Nat) (vals : List Scalar) :
    Nat → Nat → List LoanedInterface → Bool × List LoanedInterface
  | 0, _, ifs => (true, ifs)
  | k + 1, i, ifs =>
    match refs[i]?, vals[i]? with
    | some r, some x =>
      match ifs[r]? with
      | none => (false, ifs)
      | some itf => write_loop refs vals k (i + 1) (ifs.set r { itf with value := x })
    | _, _ => (false, ifs)

/-- Lines 211-222 of `update`: the desired state is written to the command interfaces. All
three loops run to `joint_position_state_interface_.size()`. -/
def update_write (c : Controller) : Outcome Unit :=
  let n := c.joint_position_state_interface_.length
  let p := write_loop c.joint_position_command_interface_ c.state_desired.positions n 0
    c.command_interfaces_
  let c1 := { c with command_interfaces_ := p.2 }
  if p.1 = false then ⟨none, c1⟩ else
  let v := write_loop c1.joint_velocity_command_interface_ c1.state_desired.velocities n 0
    c1.command_interfaces_
  let c2 := { c1 with command_interfaces_ := v.2 }
  if v.1 = false then ⟨none, c2⟩ else
  let a := write_loop c2.joint_acceleration_command_interface_ c2.state_desired.accelerations n 0
    c2.command_interfaces_
  let c3 := { c2 with command_interfaces_ := a.2 }
  if a.1 = false then ⟨none, c3⟩ else ⟨some (), c3⟩

/-- The loop at lines 228-233 of `update` with `k` iterations left at `index`; the flags are
`abort` and `outside_goal_state_tolerance`. A tolerance entry is read only when the
short-circuit `&&` gets to it. -/
def tolerance_loop (env : Env) (c : Controller) (before_last_point : Bool) :
    Nat → Nat → Bool × Bool → Option (Bool × Bool)
  | 0, _, flags => some flags
  | k + 1, index, flags =>
    if before_last_point then
      match c.default_tolerances_.state_tolerance[index]? with
      | none => none
      | some tol =>
        tolerance_loop env c before_last_point k (index + 1)
          (flags.1 || !env.check_state_tolerance_per_joint c.state_error index tol false, flags.2)
    else
      match c.default_tolerances_.goal_state_tolerance[index]? with
      | none => none
      | some tol =>
        tolerance_loop env c before_last_point k (index + 1)
          (flags.1, flags.2 || !env.check_state_tolerance_per_joint c.state_error index tol false)

/-- Lines 224-237 of `update`: the two tolerance flags and the call of
`perform_action_server_update`. -/
def update_tolerances (env : Env) (itrs : Option Nat × Option Nat) (c : Controller) :
    Outcome Unit :=
  let before_last_point := env.is_before_last_point c itrs.2
  match tolerance_loop env c before_last_point c.num_joints_ 0 (false, false) with
  | none => ⟨none, c⟩
  | some flags =>
    ⟨some (), { c with events := c.events ++
      [Event.action_server_update before_last_point flags.1 flags.2] }⟩

/-- Lines 239-248 of `update`: the last command is stored and the state snapshot published. -/
def update_publish (env : Env) (c : Controller) : Outcome Unit :=
  let c1 := { c with last_commanded_state_ := c.state_desired }
  match c1.rtBuffers.state_publisher_, c1.admittance_ with
  | some msg, some rule =>
    let m := env.admittance_get_controller_state rule
      { msg with input_joint_command := c1.pre_admittance_point,
                 desired_joint_state := c1.state_desired,
                 actual_joint_state := c1.state_current,
                 error_joint_state := c1.state_error }
    ⟨some (), { c1 with rtBuffers := { c1.rtBuffers with state_publisher_ := some m },
                        events := c1.events ++ [Event.state_published m] }⟩
  | _, _ => ⟨none, c1⟩

/-- Lines 211-251 of `update`: what follows the admittance rule and the limiter. -/
def update_output (env : Env) (itrs : Option Nat × Option Nat) (c : Controller) :
    Outcome return_type :=
  (update_write c).andThen fun _ c5 =>
  (update_tolerances env itrs c5).andThen fun _ c6 =>
  (update_publish env c6).andThen fun _ c7 =>
  ⟨some return_type.OK, c7⟩

/-- Lines 186-251 of `update`: the cycle from the sampling of the trajectory on, for the
force/torque reading `ft_values` taken before. -/
def update_from_reference (env : Env) (time period : Int) (ft_values : Wrench) (c : Controller) :
    Outcome return_type :=
  (update_reference env time c).andThen fun itrs c3 =>
  (update_command env period ft_values c3).andThen fun _ c4 =>
  update_output env itrs c4

/-- The per-cycle pipeline: everything `update` does after its lifecycle check. -/
def update_pipeline (env : Env) (time period : Int) (c : Controller) : Outcome return_type :=
  (update_sense env c).andThen fun _ c1 =>
  (update_read env c1).andThen fun ft_values c2 =>
  update_from_reference env time period ft_values c2

/-- The member `AdmittanceController::update`; `state` is what `get_state()` reports. -/
def update (env : Env) (state : LifecycleState) (time period : Int) (c : Controller) :
    Outcome return_type :=
  if state = LifecycleState.Inactive then ⟨some return_type.OK, c⟩
  else update_pipeline env time period c

/-! ## `AdmittanceController::on_configure` -/

/-- The parameters of the node that `on_configure` reads. -/
structure NodeParameters where
  joints : List String
  command_interfaces : List String
  state_interfaces : List String
  ft_sensor_name : String
  use_joint_commands_as_input : Bool
  joint_limiter_type : String
  allow_partial_joints_goal : Bool
  allow_integration_in_goal_trajectories : Bool
  action_monitor_rate : Scalar
deriving DecidableEq, Repr

/-- The default `rclcpp_lifecycle` callback `LifecycleNodeInterface::on_configure`. -/
def LifecycleNodeInterface_on_configure : CallbackReturn := CallbackReturn.SUCCESS

/-- The call `std::sort(types.begin(), types.end(), cmp)` of `on_configure`, where `cmp`
orders two names by their position in `allowed` (`std::find`, so a name that is not
allowed counts as `allowed.size()`). Names with equal positions keep their order here. -/
def sort_interface_types (allowed types : List String) : List String :=
  types.insertionSort (fun lhs rhs => allowed.indexOf lhs ≤ allowed.indexOf rhs)

/-- A default-constructed `JointTrajectoryPoint`. -/
def JointTrajectoryPoint.empty : JointTrajectoryPoint := ⟨[], [], [], [], 0, 0⟩

/-- A default-constructed `JointTrajectory`. -/
def JointTrajectory.empty : JointTrajectory := ⟨0, 0, [], []⟩

/-- The call `v.resize(n, 0.0)` of `std::vector<double>`. -/
def vec_resize (v : List Scalar) (n : Nat) : List Scalar :=
  v.take n ++ List.replicate (n - v.length) (Scalar.num 0)

/-- Lines 255-269 of `on_configure`: the chain of `||` that loads the parameters; each getter
stores its parameter and the chain stops at the first getter that reports a fault.
The value is `true` when the chain reports a fault. -/
def load_parameters (env : Env) (p : NodeParameters) (c : Controller) : Outcome Bool :=
  let c1 := { c with joint_names_ := p.joints }
  if c1.joint_names_ = [] then ⟨some true, c1⟩ else
  let c2 := { c1 with command_interface_types_ := p.command_interfaces }
  if c2.command_interface_types_ = [] then ⟨some true, c2⟩ else
  let c3 := { c2 with state_interface_types_ := p.state_interfaces }
  if c3.state_interface_types_ = [] then ⟨some true, c3⟩ else
  let c4 := { c3 with ft_sensor_name_ := p.ft_sensor_name }
  if c4.ft_sensor_name_ = "" then ⟨some true, c4⟩ else
  let c5 := { c4 with use_joint_commands_as_input_ := p.use_joint_commands_as_input }
  let c6 := { c5 with joint_limiter_type_ := p.joint_limiter_type }
  if c6.joint_limiter_type_ = "" then ⟨some true, c6⟩ else
  let c7 := { c6 with
    allow_partial_joints_goal_ := p.allow_partial_joints_goal,
    allow_integration_in_goal_trajectories_ := p.allow_integration_in_goal_trajectories,
    action_monitor_rate := p.action_monitor_rate }
  match c7.admittance_ with
  | none => ⟨none, c7⟩
  | some rule => ⟨some (!env.admittance_get_parameters rule), c7⟩

/-- Lines 270-396 of `on_configure`: what follows the loading of the parameters. -/
def configure_components (env : Env) (p : NodeParameters) (c1 : Controller) :
    Outcome CallbackReturn :=
  let c2 := { c1 with
    command_interface_types_ :=
      sort_interface_types env.allowed_command_interface_types_ c1.command_interface_types_,
    state_interface_types_ :=
      sort_interface_types env.allowed_state_interface_types_ c1.state_interface_types_,
    allow_partial_joints_goal_ := p.allow_partial_joints_goal }
  if c2.use_joint_commands_as_input_ = false then ⟨some CallbackReturn.ERROR, c2⟩ else
  let c3 := { c2 with num_joints_ := c2.joint_names_.length }
  let msg : ControllerStateMsg :=
    { joint_names := c3.joint_names_,
      input_joint_command := JointTrajectory.empty,
      desired_joint_state :=
        { JointTrajectoryPoint.empty with positions := vec_resize [] c3.num_joints_ },
      actual_joint_state :=
        { JointTrajectoryPoint.empty with positions := vec_resize [] c3.num_joints_ },
      error_joint_state :=
        { JointTrajectoryPoint.empty with positions := vec_resize [] c3.num_joints_ },
      rule_state := none }
  let c4 := { c3 with
    rtBuffers := { c3.rtBuffers with state_publisher_ := some msg },
    default_tolerances_ := env.get_segment_tolerances c3.joint_names_,
    force_torque_sensor_ := some ⟨c3.ft_sensor_name_, []⟩ }
  if env.filter_chain_throws then ⟨some CallbackReturn.ERROR, c4⟩ else
  match c4.admittance_ with
  | none => ⟨none, c4⟩
  | some rule =>
    ⟨some LifecycleNodeInterface_on_configure,
     { c4 with admittance_ := some (env.admittance_configure rule) }⟩

/-- The member `AdmittanceController::on_configure`. -/
def on_configure (env : Env) (p : NodeParameters) (c : Controller) : Outcome CallbackReturn :=
  (load_parameters env p c).andThen fun fault c1 =>
  if fault then ⟨some CallbackReturn.ERROR, c1⟩ else configure_components env p c1

/-! ## `AdmittanceController::on_activate` -/

/-- Modelled from the spec: `AdmittanceRule::reset` is defined in `admittance_rule_impl.hpp`,
which is not among the sources; "`reset()` zeroes the internal integrator state". -/
def AdmittanceRule.reset (rule : AdmittanceRule) : AdmittanceRule :=
  { admittance_position := rule.admittance_position.map fun _ => Scalar.num 0,
    admittance_velocity := rule.admittance_velocity.map fun _ => Scalar.num 0 }

/-- The inner loop of the two assignment loops of `on_activate`:
`for (j = 0; j < joint_names_.size(); j++) (*lists[i]).push_back(loaned[i * num_joints_ + j]);`
with `k` iterations left at index `j`. `lists` is the array of per-type lists, `avail` the
number of loaned interfaces; the flag is `false` when `lists[i]` or the loaned interface is
out of bounds. -/
def push_joint_interfaces (avail num_joints i : Nat) :
    Nat → Nat → List (List Nat) → Bool × List (List Nat)
  | 0, _, lists => (true, lists)
  | k + 1, j, lists =>
    match lists[i]? with
    | none => (false, lists)
    | some l =>
      if i * num_joints + j < avail then
        push_joint_interfaces avail num_joints i k (j + 1) (lists.set i (l ++ [i * num_joints + j]))
      else (false, lists)

/-- The outer loop `for (i = 0; i < types.size(); i++)` of the two assignment loops of
`on_activate`, with `k` iterations left at index `i`. -/
def assign_interface_lists (avail num_joints n_names : Nat) :
    Nat → Nat → List (List Nat) → Bool × List (List Nat)
  | 0, _, lists => (true, lists)
  | k + 1, i, lists =>
    let r := push_joint_interfaces avail num_joints i n_names 0 lists
    if r.1 = false then r else assign_interface_lists avail num_joints n_names k (i + 1) r.2

/-- Lines 401-410 of `on_activate`: the state interfaces are distributed over the three
per-type lists. -/
def activate_state_interfaces (c : Controller) : Outcome Unit :=
  let c0 := { c with controller_is_active_ := true }
  let r := assign_interface_lists c0.state_interfaces_.length c0.num_joints_
    c0.joint_names_.length c0.state_interface_types_.length 0
    [c0.joint_position_state_interface_, c0.joint_velocity_state_interface_,
     c0.joint_acceleration_state_interface_]
  let c1 := { c0 with
    joint_position_state_interface_ := r.2.getD 0 [],
    joint_velocity_state_interface_ := r.2.getD 1 [],
    joint_acceleration_state_interface_ := r.2.getD 2 [] }
  ⟨if r.1 then some () else none, c1⟩

/-- Lines 411-419 of `on_activate`: the command interfaces are distributed over the four
per-type lists. -/
def activate_command_interfaces (c : Controller) : Outcome Unit :=
  let r := assign_interface_lists c.command_interfaces_.length c.num_joints_
    c.joint_names_.length c.command_interface_types_.length 0
    [c.joint_position_command_interface_, c.joint_velocity_command_interface_,
     c.joint_acceleration_command_interface_, c.joint_effort_command_interface_]
  let c1 := { c with
    joint_position_command_interface_ := r.2.getD 0 [],
    joint_velocity_command_interface_ := r.2.getD 1 [],
    joint_acceleration_command_interface_ := r.2.getD 2 [],
    joint_effort_command_interface_ := r.2.getD 3 [] }
  ⟨if r.1 then some () else none, c1⟩

/-- Lines 420-426 of `on_activate`: the control loop data is sized. -/
def activate_allocate (env : Env) (c : Controller) : Controller :=
  let n := c.joint_names_.length
  let sv := !c.joint_velocity_state_interface_.isEmpty
  let sa := !c.joint_acceleration_state_interface_.isEmpty
  let c1 := { c with
    last_commanded_state_ := env.resize_joint_trajectory_point c.last_commanded_state_ n
      (!c.joint_velocity_command_interface_.isEmpty)
      (!c.joint_acceleration_command_interface_.isEmpty),
    state_reference := env.resize_joint_trajectory_point c.state_reference n sv sa,
    state_current := env.resize_joint_trajectory_point c.state_current n sv sa,
    state_desired := env.resize_joint_trajectory_point c.state_desired n sv sa,
    state_error := env.resize_joint_trajectory_point c.state_error n sv sa }
  { c1 with
    pre_admittance_point :=
      { c1.pre_admittance_point with
        points := c1.pre_admittance_point.points ++ [c1.last_commanded_state_] } }

/-- Lines 429-440 of `on_activate`: the home message, one waypoint at 0.05 s holding the
measured joint positions, is allocated at a fresh address. -/
def activate_home (c : Controller) : Outcome Unit :=
  let n := c.joint_position_state_interface_.length
  let r := assign_from_interfaces c.state_interfaces_ c.joint_position_state_interface_ n 0
    (vec_resize [] n)
  let home : JointTrajectory :=
    { JointTrajectory.empty with
      points := [{ JointTrajectoryPoint.empty with
                   time_from_start_sec := 0,
                   time_from_start_nanosec := 50000000,
                   positions := r.snd }] }
  let a := c.next_addr
  ⟨if r.1 then some () else none,
   { c with traj_msg_home_ptr_ := some a, next_addr := a + 1,
            msgs := fun b => if b = a then home else c.msgs b }⟩

/-- Lines 442-454 of `on_activate`: fresh samplers, an emptied trajectory mailbox, the sensor
interfaces and the reset of the admittance rule. -/
def activate_reset (env : Env) (c : Controller) : Outcome Unit :=
  let c1 := { c with
    traj_external_point_ptr_ := some ⟨none⟩,
    traj_home_point_ptr_ := some ⟨none⟩,
    rtBuffers := { c.rtBuffers with input_traj_command := none },
    subscriber_is_active_ := true,
    traj_point_active_ptr_ := ActivePtr.external,
    last_state_publish_time_ := env.now }
  match c1.force_torque_sensor_ with
  | none => ⟨none, c1⟩
  | some fts =>
    let c2 := { c1 with
      force_torque_sensor_ := some (env.assign_loaned_state_interfaces fts c1.state_interfaces_) }
    match c2.admittance_ with
    | none => ⟨none, c2⟩
    | some rule =>
      ⟨some (), { c2 with admittance_ := some rule.reset,
                          events := c2.events ++ [Event.admittance_reset] }⟩

/-- Lines 399-454 of `on_activate`: everything before the two state reads. -/
def activate_assign (env : Env) (c : Controller) : Outcome Unit :=
  (activate_state_interfaces c).andThen fun _ c1 =>
  (activate_command_interfaces c1).andThen fun _ c2 =>
  (activate_home (activate_allocate env c2)).andThen fun _ c3 =>
  activate_reset env c3

/-- Line 458 of `on_activate`: `read_state_from_command_interfaces(last_commanded_state_)`. -/
def activate_read_commands (c : Controller) : Outcome Unit :=
  let r := read_state_from_command_interfaces c c.last_commanded_state_
  ⟨if r.1 then some () else none,
   { c with last_commanded_state_ := r.2,
            events := c.events ++ [Event.read_state_from_command_interfaces] }⟩

/-- Line 459 of `on_activate`: `read_state_from_hardware(state_current)`. -/
def activate_read_hardware (c : Controller) : Outcome Unit :=
  let r := read_state_from_hardware c c.state_current
  ⟨if r.1 then some () else none,
   { c with state_current := r.2, events := c.events ++ [Event.read_state_from_hardware] }⟩

/-- The member `AdmittanceController::on_activate`. -/
def on_activate (env : Env) (c : Controller) : Outcome CallbackReturn :=
  (activate_assign env c).andThen fun _ c1 =>
  (activate_read_commands c1).andThen fun _ c2 =>
  (activate_read_hardware c2).andThen fun _ c3 =>
  ⟨some CallbackReturn.SUCCESS, { c3 with events := c3.events ++ [Event.create_action_server] }⟩

/-! ## `RLKinematics::update_robot_state` -/

/-- The kinematic model `rl::mdl::Dynamic` as `update_robot_state` uses it: the joint
configuration that `getPosition` returns and `setPosition` stores, and the number of
forward-position updates made so far. -/
structure Model where
  position : List Scalar
  forward_position_calls : Nat
deriving DecidableEq, Repr

/-- The loop `for (int i = 0; i < positions.size(); i++) positions[i] = input[i];` with `k`
iterations left at index `i`. -/
def copy_positions (input : List Scalar) : Nat → Nat → List Scalar → Option (List Scalar)
  | 0, _, positions => some positions
  | k + 1, i, positions =>
    match input[i]? with
    | none => none
    | some x =>
      match vec_write positions i x with
      | none => none
      | some w => copy_positions input k (i + 1) w

/-- The member `RLKinematics::update_robot_state`: `none` when an access is out of bounds,
otherwise the value returned and the model afterwards. -/
def update_robot_state (model : Model) (current_joint_state : JointTrajectoryPoint) :
    Option (Bool × Model) :=
  if current_joint_state.positions.length ≠ model.position.length then some (false, model)
  else
    match copy_positions current_joint_state.positions model.position.length 0 model.position with
    | none => none
    | some positions =>
      some (true, { position := positions,
                    forward_position_calls := model.forward_position_calls + 1 })

/-! ## The other lifecycle callbacks -/

/-- The default `rclcpp_lifecycle` callback `LifecycleNodeInterface::on_deactivate`. -/
def LifecycleNodeInterface_on_deactivate : CallbackReturn := CallbackReturn.SUCCESS

/-- The member `AdmittanceController::on_deactivate`; `release_interfaces` of the sensor
empties the list of interfaces assigned to it. -/
def on_deactivate (c : Controller) : Outcome CallbackReturn :=
  let c1 := { c with controller_is_active_ := false }
  match c1.force_torque_sensor_ with
  | none => ⟨none, c1⟩
  | some fts =>
    ⟨some LifecycleNodeInterface_on_deactivate,
     { c1 with force_torque_sensor_ := some { fts with assigned := [] } }⟩

/-- The member `AdmittanceController::on_cleanup`. Both `traj_home_point_ptr_->update(...)` and
the body of `Trajectory::update`, which reads the header of the message it is given, need a
pointer that is not null. -/
def on_cleanup (c : Controller) : Outcome CallbackReturn :=
  match c.traj_home_point_ptr_ with
  | none => ⟨none, c⟩
  | some sampler =>
    match c.traj_msg_home_ptr_ with
    | none => ⟨none, c⟩
    | some a =>
      ⟨some CallbackReturn.SUCCESS,
       { c with
         traj_home_point_ptr_ := some { sampler with trajectory_msg := some a },
         traj_point_active_ptr_ := ActivePtr.home }⟩

/-- The member `AdmittanceController::on_error`: one call of `reset()`, recorded, and the
result decided by what `reset()` returns. -/
def on_error (env : Env) (_previous_state : LifecycleState) (c : Controller) :
    Outcome CallbackReturn :=
  let r := env.reset c
  let c1 := { r.snd with events := c.events ++ [Event.controller_reset] }
  if r.fst = false then ⟨some CallbackReturn.ERROR, c1⟩
  else ⟨some CallbackReturn.SUCCESS, c1⟩

/-- Modelled from the spec: the lifecycle state machine that calls `on_error` is not among the
sources; "error: attempt reset; success→Unconfigured, failure→Finalized". -/
def state_after_error (r : CallbackReturn) : LifecycleState :=
  if r = CallbackReturn.SUCCESS then LifecycleState.Unconfigured else LifecycleState.Finalized

/-! ## The interface configuration -/

/-- The two nested loops of `command_interface_configuration` and
`state_interface_configuration`: for each interface type, for each joint, the name
`joint + "/" + interface`. -/
def joint_interface_names (types joints : List String) : List String :=
  (types.map fun interface => joints.map fun joint => joint ++ "/" ++ interface).flatten

/-- The member `AdmittanceController::command_interface_configuration`: the names asked for. -/
def command_interface_configuration (c : Controller) : List String :=
  joint_interface_names c.command_interface_types_ c.joint_names_

/-- The member `AdmittanceController::state_interface_configuration`: the names of the sensor
first, then those of the joints; `none` when there is no sensor to ask. -/
def state_interface_configuration (env : Env) (c : Controller) : Option (List String) :=
  match c.force_torque_sensor_ with
  | none => none
  | some fts =>
    some (env.get_state_interface_names fts ++
      joint_interface_names c.state_interface_types_ c.joint_names_)

/-- The interfaces loaned for a list of names, in the order of the names, each holding the
value that `value` gives for its position. -/
def claimed (names : List String) (value : Nat → Scalar) : List LoanedInterface :=
  names.enum.map fun p => ⟨p.2, value p.1⟩

/-! ## Kinds of recorded calls -/

/-- The calls made by lines 211-251 of `update`: to the action server and to the publisher. -/
def Event.is_output : Event → Bool
  | .action_server_update _ _ _ => true
  | .state_published _ => true
  | _ => false

/-- The calls made by lines 206-209 of `update`: to the admittance rule and to the limiter. -/
def Event.is_command : Event → Bool
  | .admittance_update _ _ _ _ _ => true
  | .enforce_limits => true
  | _ => false

/-- Whether the call is `AdmittanceRule::update`. -/
def Event.is_admittance_update : Event → Bool
  | .admittance_update _ _ _ _ _ => true
  | _ => false

/-- Whether the call is `Trajectory::update`, the replacement of the tracked trajectory. -/
def Event.is_trajectory_update : Event → Bool
  | .trajectory_update _ => true
  | _ => false

/-! ## Relations between the state before and after a part of a run -/

/-- The record of calls of `c2` is that of `c1` followed by calls that satisfy `Q`. -/
def Grows (Q : Event → Prop) (c1 c2 : Controller) : Prop :=
  ∃ l, c2.events = c1.events ++ l ∧ ∀ e ∈ l, Q e

/-- From `c1` to `c2` the external sampler, the message store and the trajectory mailbox are
untouched and only calls that satisfy `Q` are made. -/
structure Frame (Q : Event → Prop) (c1 c2 : Controller) : Prop where
  sampler : c2.traj_external_point_ptr_ = c1.traj_external_point_ptr_
  store : c2.msgs = c1.msgs
  mailbox : c2.rtBuffers.input_traj_command = c1.rtBuffers.input_traj_command
  grows : Grows Q c1 c2

/-- From `c1` to `c2` the reference state, the last valid reference and the stored
pre-admittance point are untouched. -/
structure KeepsReference (c1 c2 : Controller) : Prop where
  reference : c2.state_reference = c1.state_reference
  last_reference : c2.last_state_reference_ = c1.last_state_reference_
  pre_admittance : c2.pre_admittance_point = c1.pre_admittance_point

/-- From `c1` to `c2` no call is made and the admittance rule is untouched. -/
def Quiet (c1 c2 : Controller) : Prop :=
  c2.events = c1.events ∧ c2.admittance_ = c1.admittance_

/-- The message at address `a` after lines 169-170 of `update` completed and reordered it. -/
def normalised (env : Env) (c : Controller) (a : Nat) : JointTrajectory :=
  env.sort_to_local_joint_order
    (env.fill_partial_goal (c.msgs a) c.joint_names_ c.joint_position_command_interface_
      c.command_interfaces_)
    c.joint_names_

/-- What C18 asks of a recorded call when it is a call of `perform_action_server_update`, in a
controller with `n` joints: the two flags are not both set, `abort` is set only before the
last point, `outside_goal_state_tolerance` only when not before it, and neither with no
joints. -/
def FlagsExclusive (n : Nat) (e : Event) : Prop :=
  ∀ before_last_point abort outside, e = Event.action_server_update before_last_point abort
      outside →
    ¬ (abort = true ∧ outside = true) ∧ (abort = true → before_last_point = true) ∧
    (outside = true → before_last_point = false) ∧
    (n = 0 → abort = false ∧ outside = false)

/-- From `c1` to `c2` the number of joints is the same and every call made satisfies
`FlagsExclusive`. -/
def FlagStep (c1 c2 : Controller) : Prop :=
  c2.num_joints_ = c1.num_joints_ ∧ Grows (FlagsExclusive c1.num_joints_) c1 c2

/-! ## Concrete collaborators and controller states -/

/-- The controller as its constructor leaves it: empty containers and null pointers. -/
def Controller.constructed : Controller :=
  { joint_names_ := [], command_interface_types_ := [], state_interface_types_ := [],
    ft_sensor_name_ := "", joint_limiter_type_ := "",
    use_joint_commands_as_input_ := false, allow_partial_joints_goal_ := false,
    allow_integration_in_goal_trajectories_ := false, action_monitor_rate := Scalar.num 0,
    num_joints_ := 0, controller_is_active_ := false, subscriber_is_active_ := false,
    command_interfaces_ := [], state_interfaces_ := [],
    joint_position_state_interface_ := [], joint_velocity_state_interface_ := [],
    joint_acceleration_state_interface_ := [], joint_position_command_interface_ := [],
    joint_velocity_command_interface_ := [], joint_acceleration_command_interface_ := [],
    joint_effort_command_interface_ := [],
    last_commanded_state_ := JointTrajectoryPoint.empty,
    last_state_reference_ := JointTrajectoryPoint.empty,
    state_reference := JointTrajectoryPoint.empty,
    state_current := JointTrajectoryPoint.empty,
    state_desired := JointTrajectoryPoint.empty,
    state_error := JointTrajectoryPoint.empty,
    pre_admittance_point := JointTrajectory.empty,
    traj_msg_home_ptr_ := none, traj_external_point_ptr_ := none, traj_home_point_ptr_ := none,
    traj_point_active_ptr_ := ActivePtr.null, traj_command_msg := none,
    pose_command_msg := none, wrench_msg := none,
    rtBuffers := ⟨none, none, none, none⟩,
    admittance_ := none, joint_limiter_ := none, force_torque_sensor_ := none,
    default_tolerances_ := ⟨[], [], Scalar.num 0⟩,
    last_state_publish_time_ := 0,
    msgs := fun _ => JointTrajectory.empty, next_addr := 0, events := [] }

/-- Simple collaborators: messages are left as they are, the sampler yields the first waypoint
of the tracked message when there is one, the admittance rule passes the reference through,
every joint is within tolerance. -/
def Env.simple : Env :=
  { fill_partial_goal := fun m _ _ _ => m,
    sort_to_local_joint_order := fun m _ => m,
    have_trajectory := fun c =>
      match c.traj_external_point_ptr_ with
      | some ⟨some _⟩ => true
      | _ => false,
    sample_trajectory := fun c _ st =>
      match c.traj_external_point_ptr_ with
      | some ⟨some a⟩ =>
        match (c.msgs a).points with
        | [] => ⟨false, st, none, none⟩
        | pt :: _ => ⟨true, pt, some 0, some 0⟩
      | _ => ⟨false, st, none, none⟩,
    is_before_last_point := fun _ _ => false,
    check_state_tolerance_per_joint := fun _ _ _ _ => true,
    get_values_as_message := fun _ _ => List.replicate 6 (Scalar.num 0),
    admittance_update := fun rule _ _ reference _ _ => (rule, reference),
    admittance_get_parameters := fun _ => true,
    admittance_configure := fun rule => rule,
    admittance_get_controller_state := fun rule msg => { msg with rule_state := some rule },
    enforce_limits := fun _ _ pt => pt,
    resize_joint_trajectory_point := fun pt n v a =>
      { pt with positions := vec_resize pt.positions n,
                velocities := if v then vec_resize pt.velocities n else pt.velocities,
                accelerations := if a then vec_resize pt.accelerations n else pt.accelerations },
    get_segment_tolerances := fun names =>
      ⟨names.map fun _ => ⟨Scalar.num 0, Scalar.num 0, Scalar.num 0⟩,
       names.map fun _ => ⟨Scalar.num 0, Scalar.num 0, Scalar.num 0⟩, Scalar.num 0⟩,
    assign_loaned_state_interfaces := fun fts _ => fts,
    filter_chain_throws := false,
    allowed_command_interface_types_ := ["position", "velocity", "acceleration", "effort"],
    allowed_state_interface_types_ := ["position", "velocity", "acceleration"],
    now := 0,
    reset := fun c => (true, { c with subscriber_is_active_ := false }),
    get_state_interface_names := fun fts =>
      ["force.x", "force.y", "force.z", "torque.x", "torque.y", "torque.z"].map
        fun axis => fts.name ++ "/" ++ axis }

/-- The parameters of a one-joint controller with position and velocity interfaces. -/
def NodeParameters.one_joint : NodeParameters :=
  { joints := ["joint1"],
    command_interfaces := ["position", "velocity"],
    state_interfaces := ["position", "velocity"],
    ft_sensor_name := "ft_sensor",
    use_joint_commands_as_input := true,
    joint_limiter_type := "none",
    allow_partial_joints_goal := false,
    allow_integration_in_goal_trajectories := false,
    action_monitor_rate := Scalar.num 20 }

/-- A waypoint with the given positions and nothing else. -/
def waypoint (positions : List Scalar) : JointTrajectoryPoint :=
  { JointTrajectoryPoint.empty with positions := positions }

/-- A one-joint controller as configured (`on_init`, `on_configure`) with position and
velocity interfaces, with the interfaces loaned for activation: the position command
interface holds NaN, the measured position is 5. -/
def Controller.configured : Controller :=
  { Controller.constructed with
    joint_names_ := ["joint1"],
    command_interface_types_ := ["position", "velocity"],
    state_interface_types_ := ["position", "velocity"],
    ft_sensor_name_ := "ft_sensor", joint_limiter_type_ := "none",
    use_joint_commands_as_input_ := true, num_joints_ := 1,
    command_interfaces_ := [⟨"joint1/position", Scalar.nan⟩, ⟨"joint1/velocity", Scalar.num 0⟩],
    state_interfaces_ := [⟨"joint1/position", Scalar.num 5⟩, ⟨"joint1/velocity", Scalar.num 0⟩],
    rtBuffers := ⟨none, none, none, some ⟨["joint1"], JointTrajectory.empty,
      waypoint [Scalar.num 0], waypoint [Scalar.num 0], waypoint [Scalar.num 0], none⟩⟩,
    admittance_ := some ⟨[Scalar.num 3], [Scalar.num 4]⟩,
    force_torque_sensor_ := some ⟨"ft_sensor", []⟩,
    default_tolerances_ := Env.simple.get_segment_tolerances ["joint1"] }

/-- The one-joint controller in the middle of operation: interfaces assigned as `on_activate`
assigns them, the external sampler tracking nothing yet, and a trajectory message with one
waypoint at address 7 waiting in the trajectory mailbox. -/
def Controller.running : Controller :=
  { Controller.configured with
    controller_is_active_ := true, subscriber_is_active_ := true,
    command_interfaces_ := [⟨"joint1/position", Scalar.num 1⟩, ⟨"joint1/velocity", Scalar.num 0⟩],
    joint_position_state_interface_ := [0], joint_velocity_state_interface_ := [1],
    joint_position_command_interface_ := [0], joint_velocity_command_interface_ := [1],
    last_state_reference_ := waypoint [Scalar.num 2],
    state_reference := waypoint [Scalar.num 0],
    state_current := { waypoint [Scalar.num 5] with velocities := [Scalar.num 0] },
    state_desired := { waypoint [Scalar.num 8] with velocities := [Scalar.num 9] },
    state_error := { waypoint [Scalar.num 0] with velocities := [Scalar.num 0] },
    pre_admittance_point := { JointTrajectory.empty with points := [waypoint [Scalar.num 0]] },
    traj_external_point_ptr_ := some ⟨none⟩, traj_home_point_ptr_ := some ⟨none⟩,
    traj_point_active_ptr_ := ActivePtr.external,
    rtBuffers := { Controller.configured.rtBuffers with input_traj_command := some 7 },
    msgs := fun a =>
      if a = 7 then { JointTrajectory.empty with
                      joint_names := ["joint1"], points := [waypoint [Scalar.num 6]] }
      else JointTrajectory.empty,
    next_addr := 8 }

/-- The running controller without any joint state interface listed, so that nothing is read
from or written to the hardware in a cycle. -/
def Controller.detached : Controller :=
  { Controller.running with
    joint_position_state_interface_ := [], joint_velocity_state_interface_ := [] }

/-- A one-joint controller in operation with position, velocity and acceleration interfaces
on both sides; its last valid reference has a value for each of the three. -/
def Controller.full : Controller :=
  { Controller.running with
    command_interface_types_ := ["position", "velocity", "acceleration"],
    state_interface_types_ := ["position", "velocity", "acceleration"],
    command_interfaces_ :=
      [⟨"joint1/position", Scalar.num 0⟩, ⟨"joint1/velocity", Scalar.num 0⟩,
       ⟨"joint1/acceleration", Scalar.num 0⟩],
    state_interfaces_ :=
      [⟨"joint1/position", Scalar.num 5⟩, ⟨"joint1/velocity", Scalar.num 0⟩,
       ⟨"joint1/acceleration", Scalar.num 0⟩],
    joint_acceleration_state_interface_ := [2],
    joint_acceleration_command_interface_ := [2],
    last_state_reference_ :=
      { waypoint [Scalar.num 2] with
        velocities := [Scalar.num 3],
        accelerations := [Scalar.num 4] } }

/-- The controller after `on_init`: as constructed, with the admittance rule allocated. -/
def Controller.initialized : Controller :=
  { Controller.constructed with admittance_ := some ⟨[Scalar.num 3], [Scalar.num 4]⟩ }

/-- The controller manager lending the interfaces that the two configuration members ask
for, in the order they ask for them; all hold 0. -/
def loaned (env : Env) (c : Controller) : Controller :=
  { c with
    command_interfaces_ := claimed (command_interface_configuration c) fun _ => Scalar.num 0,
    state_interfaces_ :=
      claimed ((state_interface_configuration env c).getD []) fun _ => Scalar.num 0 }

/-- The parameters of a one-joint controller commanded in velocity only. -/
def NodeParameters.velocity_only : NodeParameters :=
  { NodeParameters.one_joint with command_interfaces := ["velocity"] }

/-- The parameters of a one-joint controller with four state interface types. -/
def NodeParameters.four_state_types : NodeParameters :=
  { NodeParameters.one_joint with
    state_interfaces := ["position", "velocity", "acceleration", "effort"] }

/-! ## What each part of `update` may change -/

theorem Grows.grows_refl (Q : Event → Prop) (c : Controller) : Grows Q c c :=
  ⟨[], by simp, by simp⟩

theorem Grows.grows_trans {Q : Event → Prop} {c1 c2 c3 : Controller}
    (h12 : Grows Q c1 c2) (h23 : Grows Q c2 c3) : Grows Q c1 c3 := by
  obtain ⟨l1, e1, q1⟩ := h12
  obtain ⟨l2, e2, q2⟩ := h23
  refine ⟨l1 ++ l2, by rw [e2, e1, List.append_assoc], ?_⟩
  intro e he
  rcases List.mem_append.mp he with h | h
  · exact q1 e h
  · exact q2 e h

theorem Grows.grows_mono {Q R : Event → Prop} {c1 c2 : Controller} (hQR : ∀ e, Q e → R e)
    (h : Grows Q c1 c2) : Grows R c1 c2 := by
  obtain ⟨l, e1, q1⟩ := h
  exact ⟨l, e1, fun e he => hQR e (q1 e he)⟩

theorem Frame.frame_refl (Q : Event → Prop) (c : Controller) : Frame Q c c :=
  ⟨rfl, rfl, rfl, Grows.grows_refl Q c⟩

theorem Frame.frame_trans {Q : Event → Prop} {c1 c2 c3 : Controller}
    (h12 : Frame Q c1 c2) (h23 : Frame Q c2 c3) : Frame Q c1 c3 :=
  ⟨h23.sampler.trans h12.sampler, h23.store.trans h12.store, h23.mailbox.trans h12.mailbox,
   h12.grows.grows_trans h23.grows⟩

theorem Frame.frame_mono {Q R : Event → Prop} {c1 c2 : Controller} (hQR : ∀ e, Q e → R e)
    (h : Frame Q c1 c2) : Frame R c1 c2 :=
  ⟨h.sampler, h.store, h.mailbox, h.grows.grows_mono hQR⟩

theorem KeepsReference.keeps_refl (c : Controller) : KeepsReference c c :=
  ⟨rfl, rfl, rfl⟩

theorem KeepsReference.keeps_trans {c1 c2 c3 : Controller}
    (h12 : KeepsReference c1 c2) (h23 : KeepsReference c2 c3) : KeepsReference c1 c3 :=
  ⟨h23.reference.trans h12.reference, h23.last_reference.trans h12.last_reference,
   h23.pre_admittance.trans h12.pre_admittance⟩

/-- A relation between the state before and the state after that holds of the first part of
a run and of whatever follows, holds of the whole run. -/
theorem andThen_rel {ρ σ : Type} (R : Controller → Controller → Prop)
    (htrans : ∀ c1 c2 c3, R c1 c2 → R c2 c3 → R c1 c3)
    (c : Controller) (o : Outcome ρ) (f : ρ → Controller → Outcome σ)
    (ho : R c o.ctrl) (hf : ∀ r c1, R c1 (f r c1).ctrl) : R c (o.andThen f).ctrl := by
  unfold Outcome.andThen
  split
  · exact ho
  · exact htrans _ _ _ ho (hf _ _)

theorem update_write_frame (c : Controller) :
    Frame (fun e => e.is_output = true) c (update_write c).ctrl ∧
    KeepsReference c (update_write c).ctrl := by
  unfold update_write
  simp only
  split_ifs <;> exact ⟨⟨rfl, rfl, rfl, Grows.grows_refl _ _⟩, ⟨rfl, rfl, rfl⟩⟩

theorem update_tolerances_frame (env : Env) (itrs : Option Nat × Option Nat) (c : Controller) :
    Frame (fun e => e.is_output = true) c (update_tolerances env itrs c).ctrl ∧
    KeepsReference c (update_tolerances env itrs c).ctrl := by
  unfold update_tolerances
  simp only
  split
  · exact ⟨Frame.frame_refl _ _, ⟨rfl, rfl, rfl⟩⟩
  · exact ⟨⟨rfl, rfl, rfl, _, rfl, by simp [Event.is_output]⟩, ⟨rfl, rfl, rfl⟩⟩

theorem update_publish_frame (env : Env) (c : Controller) :
    Frame (fun e => e.is_output = true) c (update_publish env c).ctrl ∧
    KeepsReference c (update_publish env c).ctrl := by
  unfold update_publish
  simp only
  split
  · exact ⟨⟨rfl, rfl, rfl, _, rfl, by simp [Event.is_output]⟩, ⟨rfl, rfl, rfl⟩⟩
  · exact ⟨⟨rfl, rfl, rfl, Grows.grows_refl _ _⟩, ⟨rfl, rfl, rfl⟩⟩

theorem update_output_frame (env : Env) (itrs : Option Nat × Option Nat) (c : Controller) :
    Frame (fun e => e.is_output = true) c (update_output env itrs c).ctrl ∧
    KeepsReference c (update_output env itrs c).ctrl := by
  have htrans : ∀ c1 c2 c3 : Controller,
      (Frame (fun e => e.is_output = true) c1 c2 ∧ KeepsReference c1 c2) →
      (Frame (fun e => e.is_output = true) c2 c3 ∧ KeepsReference c2 c3) →
      (Frame (fun e => e.is_output = true) c1 c3 ∧ KeepsReference c1 c3) :=
    fun _ _ _ h12 h23 => ⟨h12.1.frame_trans h23.1, h12.2.keeps_trans h23.2⟩
  unfold update_output
  refine andThen_rel _ htrans c _ _ (update_write_frame c) fun _ c5 => ?_
  refine andThen_rel _ htrans c5 _ _ (update_tolerances_frame env itrs c5) fun _ c6 => ?_
  refine andThen_rel _ htrans c6 _ _ (update_publish_frame env c6) fun _ c7 => ?_
  exact ⟨Frame.frame_refl _ _, KeepsReference.keeps_refl _⟩

theorem andThen_some {ρ σ : Type} (o : Outcome ρ) (f : ρ → Controller → Outcome σ) (r : ρ)
    (h : o.ret = some r) : o.andThen f = f r o.ctrl := by
  unfold Outcome.andThen
  rw [h]

theorem andThen_none {ρ σ : Type} (o : Outcome ρ) (f : ρ → Controller → Outcome σ)
    (h : o.ret = none) : o.andThen f = ⟨none, o.ctrl⟩ := by
  unfold Outcome.andThen
  rw [h]

theorem set_zero_getElem {α : Type} (l : List α) (x : α) (h : l ≠ []) :
    (l.set 0 x)[0]? = some x := by
  cases l with
  | nil => exact absurd rfl h
  | cons y t => simp

/-- The reference that lines 186-199 of `update` settle on. -/
theorem update_reference_spec (env : Env) (time : Int) (c : Controller)
    (hpts : c.pre_admittance_point.points ≠ []) :
    (update_reference env time c).ret =
      some ((update_sample env time c).start_segment_itr,
            (update_sample env time c).end_segment_itr) ∧
    (update_reference env time c).ctrl.state_reference =
      (if (update_sample env time c).valid then (update_sample env time c).state
       else c.last_state_reference_) ∧
    (update_reference env time c).ctrl.last_state_reference_ =
      (if (update_sample env time c).valid then (update_sample env time c).state
       else c.last_state_reference_) ∧
    (update_reference env time c).ctrl.pre_admittance_point.points[0]? =
      some (if (update_sample env time c).valid then (update_sample env time c).state
            else c.last_state_reference_) ∧
    (update_reference env time c).ctrl.admittance_ = c.admittance_ ∧
    (update_reference env time c).ctrl.state_current = c.state_current ∧
    (update_reference env time c).ctrl.events = c.events := by
  have hlen : 0 < c.pre_admittance_point.points.length := List.length_pos.mpr hpts
  unfold update_reference
  cases hv : (update_sample env time c).valid <;>
    simp [vec_write, hlen, hv, set_zero_getElem _ _ hpts]

/-- The call of the admittance rule at line 206 of `update`. -/
theorem update_command_spec (env : Env) (period : Int) (ft : Wrench) (c : Controller)
    (rule : AdmittanceRule) (hrule : c.admittance_ = some rule) :
    (update_command env period ft c).ret = some () ∧
    KeepsReference c (update_command env period ft c).ctrl ∧
    ∃ rest, (update_command env period ft c).ctrl.events =
        c.events ++ Event.admittance_update rule c.state_current ft c.state_reference period
          :: rest ∧
      ∀ e ∈ rest, e.is_admittance_update = false := by
  unfold update_command
  simp only [hrule]
  split
  · exact ⟨rfl, ⟨rfl, rfl, rfl⟩, [], rfl, by simp⟩
  · exact ⟨rfl, ⟨rfl, rfl, rfl⟩, [Event.enforce_limits], by simp,
      by simp [Event.is_admittance_update]⟩

theorem andThen_grows {ρ σ : Type} {Q : Event → Prop} (c : Controller) (o : Outcome ρ)
    (f : ρ → Controller → Outcome σ) (ho : Grows Q c o.ctrl)
    (hf : ∀ r, Grows Q o.ctrl (f r o.ctrl).ctrl) : Grows Q c (o.andThen f).ctrl := by
  unfold Outcome.andThen
  split
  · exact ho
  · exact ho.grows_trans (hf _)

theorem update_trajectory_grows (env : Env) (sampler : Trajectory) (c : Controller) :
    Grows (fun e => e = Event.traj_buffer_read ∨ e.is_trajectory_update = true) c
      (update_trajectory env sampler c).ctrl ∧
    (update_trajectory env sampler c).ctrl.admittance_ = c.admittance_ ∧
    (update_trajectory env sampler c).ctrl.rtBuffers.input_traj_command =
      c.rtBuffers.input_traj_command := by
  unfold update_trajectory
  split_ifs
  · split
    · exact ⟨Grows.grows_refl _ _, rfl, rfl⟩
    · exact ⟨⟨[Event.trajectory_update _], rfl, by simp [Event.is_trajectory_update]⟩, rfl, rfl⟩
  · exact ⟨Grows.grows_refl _ _, rfl, rfl⟩

/-- The sensing part of `update` reads the trajectory mailbox and may replace the tracked
trajectory; it leaves the mailbox and the admittance rule alone. -/
theorem update_sense_grows (env : Env) (c : Controller) :
    Grows (fun e => e = Event.traj_buffer_read ∨ e.is_trajectory_update = true) c
      (update_sense env c).ctrl ∧
    (update_sense env c).ctrl.admittance_ = c.admittance_ ∧
    (update_sense env c).ctrl.rtBuffers.input_traj_command = c.rtBuffers.input_traj_command := by
  unfold update_sense
  split
  · exact ⟨Grows.grows_refl _ _, rfl, rfl⟩
  · rename_i sampler _
    obtain ⟨hg, ha, hm⟩ := update_trajectory_grows env sampler
      { c with traj_command_msg := c.rtBuffers.input_traj_command,
               events := c.events ++ [Event.traj_buffer_read] }
    have h0 : Grows (fun e => e = Event.traj_buffer_read ∨ e.is_trajectory_update = true) c
        { c with traj_command_msg := c.rtBuffers.input_traj_command,
                 events := c.events ++ [Event.traj_buffer_read] } :=
      ⟨[Event.traj_buffer_read], rfl, by simp⟩
    unfold Outcome.andThen
    split
    · exact ⟨h0.grows_trans hg, ha, hm⟩
    · exact ⟨(h0.grows_trans hg).grows_trans ⟨[], (List.append_nil _).symm, by simp⟩, ha, hm⟩

/-- The hardware read of `update` touches `state_current` only. -/
theorem update_read_frame (env : Env) (c : Controller) :
    Frame (fun e => e = Event.read_state_from_hardware) c (update_read env c).ctrl ∧
    KeepsReference c (update_read env c).ctrl ∧
    (update_read env c).ctrl.admittance_ = c.admittance_ := by
  unfold update_read
  simp only
  split_ifs
  · exact ⟨⟨rfl, rfl, rfl, [Event.read_state_from_hardware], rfl, by simp⟩, ⟨rfl, rfl, rfl⟩, rfl⟩
  · split
    · exact ⟨⟨rfl, rfl, rfl, [Event.read_state_from_hardware], rfl, by simp⟩, ⟨rfl, rfl, rfl⟩,
        rfl⟩
    · exact ⟨⟨rfl, rfl, rfl, [Event.read_state_from_hardware], rfl, by simp⟩, ⟨rfl, rfl, rfl⟩,
        rfl⟩

/-- Settling the reference makes no call and leaves the admittance rule alone. -/
theorem update_reference_frame (env : Env) (time : Int) (c : Controller) :
    Frame (fun _ => False) c (update_reference env time c).ctrl ∧
    (update_reference env time c).ctrl.admittance_ = c.admittance_ := by
  unfold update_reference
  simp only
  split <;> split_ifs <;> exact ⟨⟨rfl, rfl, rfl, Grows.grows_refl _ _⟩, rfl⟩

/-- The admittance rule and the limiter touch `admittance_` and `state_desired` only, and the
rule that `AdmittanceRule::update` runs on is the one found in `admittance_`. -/
theorem update_command_frame (env : Env) (period : Int) (ft : Wrench) (c : Controller) :
    Frame (fun e => e.is_command = true ∧
        ∀ rule cur w reference p, e = Event.admittance_update rule cur w reference p →
          c.admittance_ = some rule) c
      (update_command env period ft c).ctrl := by
  unfold update_command
  split
  · exact Frame.frame_refl _ _
  · rename_i rule hrule
    simp only
    split
    · refine ⟨rfl, rfl, rfl, [_], rfl, ?_⟩
      intro e he
      rw [List.mem_singleton] at he
      subst he
      refine ⟨rfl, ?_⟩
      intro r cur w reference p h
      injection h with h1
      rw [hrule, h1]
    · refine ⟨rfl, rfl, rfl,
        [Event.admittance_update rule c.state_current ft c.state_reference period,
         Event.enforce_limits], by simp, ?_⟩
      intro e he
      simp only [List.mem_cons, List.mem_singleton, List.not_mem_nil, or_false] at he
      rcases he with he | he
      · subst he
        refine ⟨rfl, ?_⟩
        intro r cur w reference p h
        injection h with h1
        rw [hrule, h1]
      · subst he
        exact ⟨rfl, fun _ _ _ _ _ h => by cases h⟩

/-! ## The lifecycle check of `update` -/

/-- C1: in lifecycle state Inactive, for every time and period, `update` returns OK and leaves
the controller as it was: the value of every command interface and every other member. -/
theorem update_inactive_unchanged (env : Env) (time period : Int) (c : Controller) :
    update env LifecycleState.Inactive time period c = ⟨some return_type.OK, c⟩ ∧
    (update env LifecycleState.Inactive time period c).ctrl.command_interfaces_ =
      c.command_interfaces_ := by
  constructor <;> simp [update]

/-- C2, as stated, fails: in lifecycle state Unconfigured `update` runs the whole per-cycle
pipeline. On the controller `Controller.detached` it reads the trajectory mailbox, replaces
the trajectory of the sampler, reads the hardware state, updates the admittance rule and
publishes a snapshot before it returns OK. -/
theorem update_unconfigured_runs_pipeline :
    (update Env.simple LifecycleState.Unconfigured 0 1 Controller.detached).ret =
      some return_type.OK ∧
    Controller.detached.events = [] ∧
    (update Env.simple LifecycleState.Unconfigured 0 1 Controller.detached).ctrl.events.length
      = 6 ∧
    Event.traj_buffer_read ∈
      (update Env.simple LifecycleState.Unconfigured 0 1 Controller.detached).ctrl.events ∧
    Event.read_state_from_hardware ∈
      (update Env.simple LifecycleState.Unconfigured 0 1 Controller.detached).ctrl.events ∧
    Controller.detached.traj_external_point_ptr_ = some ⟨none⟩ ∧
    (update Env.simple LifecycleState.Unconfigured 0 1
      Controller.detached).ctrl.traj_external_point_ptr_ = some ⟨some 7⟩ := by
  decide

/-- C2, amended: the lifecycle check of `update` singles out Inactive only. In Inactive
`update` returns OK without running any step of the pipeline (nothing is recorded, nothing
changes); in every other lifecycle state (Unconfigured, CleaningUp, ErrorHandling, Finalized)
it does exactly what it does in Active. -/
theorem update_gated_on_inactive_only (env : Env) (time period : Int) (c : Controller) :
    update env LifecycleState.Inactive time period c = ⟨some return_type.OK, c⟩ ∧
    ∀ state : LifecycleState, state ≠ LifecycleState.Inactive →
      update env state time period c = update env LifecycleState.Active time period c := by
  refine ⟨by simp [update], ?_⟩
  intro state hstate
  simp [update, hstate]

/-- The amended C2 at the state Unconfigured of the controller `Controller.detached`. -/
theorem update_gated_on_inactive_only_witness :
    LifecycleState.Unconfigured ≠ LifecycleState.Inactive ∧
    update Env.simple LifecycleState.Unconfigured 0 1 Controller.detached =
      update Env.simple LifecycleState.Active 0 1 Controller.detached :=
  ⟨by decide,
   (update_gated_on_inactive_only Env.simple 0 1 Controller.detached).2
     LifecycleState.Unconfigured (by decide)⟩

/-! ## The reference state of a cycle -/

/-- The body of `update` in lifecycle state Active: the sensing part, the hardware read, and
the cycle from line 186 on. -/
theorem update_active_eq (env : Env) (time period : Int) (c : Controller) :
    update env LifecycleState.Active time period c =
      (update_sense env c).andThen fun _ c1 =>
      (update_read env c1).andThen fun ft_values c2 =>
      update_from_reference env time period ft_values c2 := by
  simp [update, update_pipeline]

/-- A cycle of `update` in lifecycle state Active whose sensing part and hardware read run
through, leaving the state `c` and the reading `ft_values`, continues as the cycle from line
186 on does from `c`. -/
theorem update_active_from_reference (env : Env) (time period : Int) (c0 c : Controller)
    (ft_values : Wrench)
    (h : ((update_sense env c0).andThen fun _ c1 => update_read env c1) = ⟨some ft_values, c⟩) :
    update env LifecycleState.Active time period c0 =
      update_from_reference env time period ft_values c := by
  rw [update_active_eq]
  unfold Outcome.andThen at h ⊢
  cases hs : (update_sense env c0).ret with
  | none => simp [hs] at h
  | some u =>
    simp only [hs] at h ⊢
    rw [h]

/-- C3: in a cycle of `update`, from line 186 on (whatever state `c` and force/torque reading
the first lines left, with `pre_admittance_point.points` non-empty as `on_activate` makes it
and the admittance rule allocated): `AdmittanceRule::update` is called once, with a
reference that is also stored in `pre_admittance_point.points[0]`. If there is no trajectory or
`sample_trajectory` reports an invalid sample, that reference is `last_state_reference_` and
`last_state_reference_` is left unchanged; if the sample is valid, the reference is the sampled
state and `last_state_reference_` becomes the sampled state. This holds of the state on return
and, when a later line is undefined, of the state at that line. A cycle in lifecycle state
Active that gets to line 186 in state `c` is such a run. -/
theorem update_reference_falls_back (env : Env) (time period : Int) (ft_values : Wrench)
    (c : Controller) (rule : AdmittanceRule)
    (hpts : c.pre_admittance_point.points ≠ []) (hrule : c.admittance_ = some rule) :
    ∃ reference rest,
      (update_from_reference env time period ft_values c).ctrl.events =
        c.events ++
          Event.admittance_update rule c.state_current ft_values reference period :: rest ∧
      (∀ e ∈ rest, e.is_admittance_update = false) ∧
      (update_from_reference env time period ft_values c).ctrl.pre_admittance_point.points[0]? =
        some reference ∧
      (env.have_trajectory c = false ∨
          (env.sample_trajectory c time c.state_reference).valid = false →
        reference = c.last_state_reference_ ∧
        (update_from_reference env time period ft_values c).ctrl.last_state_reference_ =
          c.last_state_reference_) ∧
      (env.have_trajectory c = true ∧
          (env.sample_trajectory c time c.state_reference).valid = true →
        reference = (env.sample_trajectory c time c.state_reference).state ∧
        (update_from_reference env time period ft_values c).ctrl.last_state_reference_ =
          (env.sample_trajectory c time c.state_reference).state) ∧
      (∀ c0 : Controller,
        ((update_sense env c0).andThen fun _ c1 => update_read env c1) = ⟨some ft_values, c⟩ →
        update env LifecycleState.Active time period c0 =
          update_from_reference env time period ft_values c) := by
  obtain ⟨hret, href, hlast, hpre, hadm, hcur, hev⟩ := update_reference_spec env time c hpts
  obtain ⟨hcret, hckeep, rest1, hcev, hcrest⟩ :=
    update_command_spec env period ft_values (update_reference env time c).ctrl rule
      (hadm.trans hrule)
  have hout := update_output_frame env
    ((update_sample env time c).start_segment_itr, (update_sample env time c).end_segment_itr)
    (update_command env period ft_values (update_reference env time c).ctrl).ctrl
  have hrun : update_from_reference env time period ft_values c =
      update_output env
        ((update_sample env time c).start_segment_itr, (update_sample env time c).end_segment_itr)
        (update_command env period ft_values (update_reference env time c).ctrl).ctrl := by
    unfold update_from_reference
    rw [andThen_some _ _ _ hret, andThen_some _ _ _ hcret]
  obtain ⟨rest2, hoev, horest⟩ := hout.1.grows
  refine ⟨if (update_sample env time c).valid then (update_sample env time c).state
      else c.last_state_reference_, rest1 ++ rest2, ?_, ?_, ?_, ?_, ?_,
      fun c0 h => update_active_from_reference env time period c0 c ft_values h⟩
  · rw [hrun, hoev, hcev, hev, hcur, href]
    simp
  · intro e he
    rcases List.mem_append.mp he with h | h
    · exact hcrest e h
    · have := horest e h
      cases e <;> simp_all [Event.is_output, Event.is_admittance_update]
  · rw [hrun, hout.2.pre_admittance, hckeep.pre_admittance, hpre]
  · intro hinv
    have hv : (update_sample env time c).valid = false := by
      unfold update_sample
      rcases hinv with h | h
      · simp [h]
      · split <;> simp [h]
    rw [hrun, hout.2.last_reference, hckeep.last_reference, hlast]
    simp [hv]
  · rintro ⟨hh, hs⟩
    have hv : update_sample env time c = env.sample_trajectory c time c.state_reference := by
      unfold update_sample
      simp [hh]
    rw [hrun, hout.2.last_reference, hckeep.last_reference, hlast]
    simp [hv, hs]

/-- C3 on the controller `Controller.running` (whose mailbox message is not yet tracked, so
there is no trajectory to sample): the reference is the last valid one. -/
theorem update_reference_falls_back_witness :
    ∃ reference rest,
      (update_from_reference Env.simple 0 1 [] Controller.running).ctrl.events =
        Controller.running.events ++
          Event.admittance_update ⟨[Scalar.num 3], [Scalar.num 4]⟩
            Controller.running.state_current [] reference 1 :: rest ∧
      (∀ e ∈ rest, e.is_admittance_update = false) ∧
      (update_from_reference Env.simple 0 1 []
        Controller.running).ctrl.pre_admittance_point.points[0]? = some reference ∧
      (Env.simple.have_trajectory Controller.running = false ∨
          (Env.simple.sample_trajectory Controller.running 0
            Controller.running.state_reference).valid = false →
        reference = Controller.running.last_state_reference_ ∧
        (update_from_reference Env.simple 0 1 [] Controller.running).ctrl.last_state_reference_ =
          Controller.running.last_state_reference_) ∧
      (Env.simple.have_trajectory Controller.running = true ∧
          (Env.simple.sample_trajectory Controller.running 0
            Controller.running.state_reference).valid = true →
        reference = (Env.simple.sample_trajectory Controller.running 0
          Controller.running.state_reference).state ∧
        (update_from_reference Env.simple 0 1 [] Controller.running).ctrl.last_state_reference_ =
          (Env.simple.sample_trajectory Controller.running 0
            Controller.running.state_reference).state) ∧
      (∀ c0 : Controller,
        ((update_sense Env.simple c0).andThen fun _ c1 => update_read Env.simple c1) =
          ⟨some [], Controller.running⟩ →
        update Env.simple LifecycleState.Active 0 1 c0 =
          update_from_reference Env.simple 0 1 [] Controller.running) :=
  update_reference_falls_back Env.simple 0 1 [] Controller.running ⟨[Scalar.num 3], [Scalar.num 4]⟩
    (by decide) (by decide)

/-! ## Resetting the admittance rule -/

/-- The calls that `update` makes never include `AdmittanceRule::reset`, and every call of
`AdmittanceRule::update` runs on the rule as it was at the start of the cycle. -/
theorem update_grows (env : Env) (state : LifecycleState) (time period : Int) (c : Controller) :
    Grows (fun e => e ≠ Event.admittance_reset ∧
        ∀ rule cur w reference p, e = Event.admittance_update rule cur w reference p →
          c.admittance_ = some rule) c
      (update env state time period c).ctrl := by
  unfold update
  split_ifs
  · exact Grows.grows_refl _ _
  · obtain ⟨hs, has, _⟩ := update_sense_grows env c
    unfold update_pipeline
    refine andThen_grows c _ _ (hs.grows_mono ?_) fun _ => ?_
    · rintro e (rfl | he)
      · exact ⟨by simp, fun _ _ _ _ _ h => by cases h⟩
      · cases e <;> simp_all [Event.is_trajectory_update]
    obtain ⟨hr, _, har⟩ := update_read_frame env (update_sense env c).ctrl
    refine andThen_grows _ _ _ (hr.grows.grows_mono ?_) fun ft => ?_
    · rintro e rfl
      exact ⟨by simp, fun _ _ _ _ _ h => by cases h⟩
    obtain ⟨hf, haf⟩ := update_reference_frame env time (update_read env (update_sense env c).ctrl).ctrl
    unfold update_from_reference
    refine andThen_grows _ _ _ (hf.grows.grows_mono fun _ h => h.elim) fun itrs => ?_
    refine andThen_grows _ _ _ ((update_command_frame env period ft _).grows.grows_mono ?_) fun _ => ?_
    · rintro e ⟨hc, hrule⟩
      refine ⟨?_, fun rule cur w reference p h => ?_⟩
      · rintro rfl
        simp [Event.is_command] at hc
      · rw [← has, ← har, ← haf]
        exact hrule rule cur w reference p h
    · refine (update_output_frame env itrs _).1.grows.grows_mono ?_
      intro e he
      cases e <;> simp_all [Event.is_output]

/-- C4, as stated, fails: in the Active cycle of `Controller.detached` the trajectory of the
sampler is replaced by the message waiting in the mailbox and `AdmittanceRule::update` is
called, but `AdmittanceRule::reset` is not called anywhere in the cycle. -/
theorem update_replaces_without_reset :
    (update Env.simple LifecycleState.Active 0 1 Controller.detached).ret =
      some return_type.OK ∧
    Controller.detached.events = [] ∧
    Event.trajectory_update 7 ∈
      (update Env.simple LifecycleState.Active 0 1 Controller.detached).ctrl.events ∧
    ((update Env.simple LifecycleState.Active 0 1 Controller.detached).ctrl.events.any
      Event.is_admittance_update) = true ∧
    Event.admittance_reset ∉
      (update Env.simple LifecycleState.Active 0 1 Controller.detached).ctrl.events := by
  decide

theorem andThen_ret_some {ρ σ : Type} (o : Outcome ρ) (f : ρ → Controller → Outcome σ) (r : σ)
    (h : (o.andThen f).ret = some r) :
    ∃ r0, o.ret = some r0 ∧ o.andThen f = f r0 o.ctrl := by
  unfold Outcome.andThen at h ⊢
  split at h
  · cases h
  · rename_i r0 h0
    exact ⟨r0, h0, by simp [h0]⟩

theorem Quiet.quiet_trans {c1 c2 c3 : Controller} (h12 : Quiet c1 c2) (h23 : Quiet c2 c3) :
    Quiet c1 c3 :=
  ⟨h23.1.trans h12.1, h23.2.trans h12.2⟩

theorem activate_state_interfaces_quiet (c : Controller) :
    Quiet c (activate_state_interfaces c).ctrl := ⟨rfl, rfl⟩

theorem activate_command_interfaces_quiet (c : Controller) :
    Quiet c (activate_command_interfaces c).ctrl := ⟨rfl, rfl⟩

theorem activate_home_quiet (env : Env) (c : Controller) :
    Quiet c (activate_home (activate_allocate env c)).ctrl := ⟨rfl, rfl⟩

/-- Lines 442-454 of `on_activate`, when they run through, reset the admittance rule. -/
theorem activate_reset_spec (env : Env) (c : Controller)
    (h : (activate_reset env c).ret = some ()) :
    ∃ rule, c.admittance_ = some rule ∧
      (activate_reset env c).ctrl.admittance_ = some rule.reset ∧
      (activate_reset env c).ctrl.events = c.events ++ [Event.admittance_reset] := by
  cases hf : c.force_torque_sensor_ with
  | none => simp [activate_reset, hf] at h
  | some fts =>
    cases hr : c.admittance_ with
    | none => simp [activate_reset, hf, hr] at h
    | some rule => exact ⟨rule, rfl, by simp [activate_reset, hf, hr], by simp [activate_reset, hf, hr]⟩

/-- When the part of `on_activate` before the two state reads runs through, it has reset the
admittance rule and made no other call. -/
theorem activate_assign_spec (env : Env) (c : Controller)
    (h : (activate_assign env c).ret = some ()) :
    ∃ rule, c.admittance_ = some rule ∧
      (activate_assign env c).ctrl.admittance_ = some rule.reset ∧
      (activate_assign env c).ctrl.events = c.events ++ [Event.admittance_reset] := by
  unfold activate_assign at h ⊢
  obtain ⟨_, _, e1⟩ := andThen_ret_some _ _ _ h
  rw [e1] at h ⊢
  obtain ⟨_, _, e2⟩ := andThen_ret_some _ _ _ h
  rw [e2] at h ⊢
  obtain ⟨_, _, e3⟩ := andThen_ret_some _ _ _ h
  rw [e3] at h ⊢
  have hq := ((activate_state_interfaces_quiet c).quiet_trans
    (activate_command_interfaces_quiet (activate_state_interfaces c).ctrl)).quiet_trans
    (activate_home_quiet env (activate_command_interfaces (activate_state_interfaces c).ctrl).ctrl)
  obtain ⟨rule, hr, ha, he⟩ := activate_reset_spec env _ h
  exact ⟨rule, hq.2 ▸ hr, ha, by rw [he, hq.1]⟩

/-- The two state reads and the creation of the action server leave the admittance rule alone
and make no call of the admittance rule. -/
theorem activate_reads_frame (c : Controller) :
    ((activate_read_commands c).andThen fun _ c2 =>
      (activate_read_hardware c2).andThen fun _ c3 =>
      (⟨some CallbackReturn.SUCCESS,
        { c3 with events := c3.events ++ [Event.create_action_server] }⟩ :
        Outcome CallbackReturn)).ctrl.admittance_ = c.admittance_ ∧
    Grows (fun e => e ≠ Event.admittance_reset ∧ e.is_admittance_update = false) c
      ((activate_read_commands c).andThen fun _ c2 =>
        (activate_read_hardware c2).andThen fun _ c3 =>
        (⟨some CallbackReturn.SUCCESS,
          { c3 with events := c3.events ++ [Event.create_action_server] }⟩ :
          Outcome CallbackReturn)).ctrl := by
  have htrans : ∀ c1 c2 c3 : Controller,
      (c2.admittance_ = c1.admittance_ ∧
        Grows (fun e => e ≠ Event.admittance_reset ∧ e.is_admittance_update = false) c1 c2) →
      (c3.admittance_ = c2.admittance_ ∧
        Grows (fun e => e ≠ Event.admittance_reset ∧ e.is_admittance_update = false) c2 c3) →
      (c3.admittance_ = c1.admittance_ ∧
        Grows (fun e => e ≠ Event.admittance_reset ∧ e.is_admittance_update = false) c1 c3) :=
    fun _ _ _ h12 h23 => ⟨h23.1.trans h12.1, h12.2.grows_trans h23.2⟩
  refine andThen_rel (fun c1 c2 => c2.admittance_ = c1.admittance_ ∧
      Grows (fun e => e ≠ Event.admittance_reset ∧ e.is_admittance_update = false) c1 c2)
    htrans c _ _ ?_ fun _ c2 => ?_
  · exact ⟨rfl, [Event.read_state_from_command_interfaces], rfl,
      by simp [Event.is_admittance_update]⟩
  refine andThen_rel (fun c1 c2 => c2.admittance_ = c1.admittance_ ∧
      Grows (fun e => e ≠ Event.admittance_reset ∧ e.is_admittance_update = false) c1 c2)
    htrans c2 _ _ ?_ fun _ c3 => ?_
  · exact ⟨rfl, [Event.read_state_from_hardware], rfl, by simp [Event.is_admittance_update]⟩
  · exact ⟨rfl, [Event.create_action_server], rfl, by simp [Event.is_admittance_update]⟩

/-- C4, amended: `AdmittanceRule::reset` is called by `on_activate` only. `update` never calls
it, in no lifecycle state and also not in a cycle in which the trajectory of the sampler is
replaced: every call of `AdmittanceRule::update` in a cycle runs on the rule state with which
the cycle started. `on_activate`, whenever it gets as far as the two state reads, has called
`reset()` once, and the rule it leaves is the reset one. -/
theorem reset_on_activate_only (env : Env) :
    (∀ (state : LifecycleState) (time period : Int) (c : Controller),
      ∃ calls, (update env state time period c).ctrl.events = c.events ++ calls ∧
        Event.admittance_reset ∉ calls ∧
        ∀ rule cur w reference p, Event.admittance_update rule cur w reference p ∈ calls →
          c.admittance_ = some rule) ∧
    (∀ c : Controller, (activate_assign env c).ret = some () →
      ∃ rule calls, c.admittance_ = some rule ∧
        (on_activate env c).ctrl.admittance_ = some rule.reset ∧
        (on_activate env c).ctrl.events = c.events ++ Event.admittance_reset :: calls ∧
        Event.admittance_reset ∉ calls) := by
  constructor
  · intro state time period c
    obtain ⟨calls, he, hq⟩ := update_grows env state time period c
    exact ⟨calls, he, fun hmem => (hq _ hmem).1 rfl,
      fun rule cur w reference p hmem => (hq _ hmem).2 rule cur w reference p rfl⟩
  · intro c h
    obtain ⟨rule, hr, ha, he⟩ := activate_assign_spec env c h
    obtain ⟨hadm, calls, hev, hq⟩ := activate_reads_frame (activate_assign env c).ctrl
    have hrun : on_activate env c =
        (activate_read_commands (activate_assign env c).ctrl).andThen fun _ c2 =>
          (activate_read_hardware c2).andThen fun _ c3 =>
          (⟨some CallbackReturn.SUCCESS,
            { c3 with events := c3.events ++ [Event.create_action_server] }⟩ :
            Outcome CallbackReturn) := by
      unfold on_activate
      rw [andThen_some _ _ _ h]
    refine ⟨rule, calls, hr, ?_, ?_, fun hmem => (hq _ hmem).1 rfl⟩
    · rw [hrun, hadm, ha]
    · rw [hrun, hev, he]
      simp

/-- The amended C4 on the one-joint controller `Controller.configured`, whose activation gets
as far as the state reads. -/
theorem reset_on_activate_only_witness :
    (activate_assign Env.simple Controller.configured).ret = some () ∧
    ∃ rule calls, Controller.configured.admittance_ = some rule ∧
      (on_activate Env.simple Controller.configured).ctrl.admittance_ = some rule.reset ∧
      (on_activate Env.simple Controller.configured).ctrl.events =
        Controller.configured.events ++ Event.admittance_reset :: calls ∧
      Event.admittance_reset ∉ calls :=
  ⟨by decide, (reset_on_activate_only Env.simple).2 Controller.configured (by decide)⟩

/-! ## Replacing the tracked trajectory -/

/-- The sensing part of `update` when the external sampler exists and the mailbox does not
hold a null pointer against a tracked message. -/
theorem update_sense_spec (env : Env) (c : Controller) (sampler : Trajectory)
    (hs : c.traj_external_point_ptr_ = some sampler)
    (hmsg : c.rtBuffers.input_traj_command ≠ none ∨ sampler.trajectory_msg = none) :
    (update_sense env c).ret = some () ∧
    (update_sense env c).ctrl.rtBuffers.input_traj_command = c.rtBuffers.input_traj_command ∧
    (c.rtBuffers.input_traj_command = sampler.trajectory_msg →
      (update_sense env c).ctrl.traj_external_point_ptr_ = some sampler ∧
      (update_sense env c).ctrl.msgs = c.msgs ∧
      (update_sense env c).ctrl.events = c.events ++ [Event.traj_buffer_read]) ∧
    (c.rtBuffers.input_traj_command ≠ sampler.trajectory_msg →
      ∃ a, c.rtBuffers.input_traj_command = some a ∧
        (update_sense env c).ctrl.traj_external_point_ptr_ = some ⟨some a⟩ ∧
        (update_sense env c).ctrl.msgs = (fun b => if b = a then normalised env c a else c.msgs b) ∧
        (update_sense env c).ctrl.events =
          c.events ++ [Event.traj_buffer_read, Event.trajectory_update a]) := by
  by_cases heq : c.rtBuffers.input_traj_command = sampler.trajectory_msg
  · have hrun : update_sense env c = ⟨some (), update_drain
        { c with traj_command_msg := c.rtBuffers.input_traj_command,
                 events := c.events ++ [Event.traj_buffer_read] }⟩ := by
      simp [update_sense, hs, update_trajectory, heq, Outcome.andThen]
    rw [hrun]
    exact ⟨rfl, rfl, fun _ => ⟨hs, rfl, rfl⟩, fun h => absurd heq h⟩
  · have hne : sampler.trajectory_msg ≠ c.rtBuffers.input_traj_command := fun h => heq h.symm
    cases hb : c.rtBuffers.input_traj_command with
    | none =>
      rcases hmsg with h | h
      · exact absurd hb h
      · exact absurd (hb.trans h.symm) heq
    | some a =>
      rw [hb] at hne
      have hrun : update_sense env c = ⟨some (), update_drain
          { c with
            traj_command_msg := c.rtBuffers.input_traj_command,
            msgs := fun b => if b = a then normalised env c a else c.msgs b,
            traj_external_point_ptr_ := some ⟨some a⟩,
            events := c.events ++ [Event.traj_buffer_read] ++ [Event.trajectory_update a] }⟩ := by
        simp [update_sense, hs, update_trajectory, hb, hne, Outcome.andThen, normalised]
      rw [hrun]
      refine ⟨rfl, hb, fun h => absurd h (by simp [hne.symm]),
        fun _ => ⟨a, rfl, rfl, rfl, ?_⟩⟩
      simp [update_drain]

/-- After the sensing part, nothing in `update` touches the external sampler, the message
store or the trajectory mailbox, and nothing replaces a trajectory. -/
theorem update_rest_frame (env : Env) (time period : Int) (c : Controller) :
    Frame (fun e => e.is_trajectory_update = false) c
      ((update_read env c).andThen fun ft_values c2 =>
        update_from_reference env time period ft_values c2).ctrl := by
  have htrans : ∀ c1 c2 c3 : Controller, Frame (fun e => e.is_trajectory_update = false) c1 c2 →
      Frame (fun e => e.is_trajectory_update = false) c2 c3 →
      Frame (fun e => e.is_trajectory_update = false) c1 c3 := fun _ _ _ h12 h23 => h12.frame_trans h23
  refine andThen_rel _ htrans c _ _ ((update_read_frame env c).1.frame_mono ?_) fun ft c2 => ?_
  · rintro e rfl
    rfl
  unfold update_from_reference
  refine andThen_rel _ htrans c2 _ _
    ((update_reference_frame env time c2).1.frame_mono fun _ h => h.elim) fun itrs c3 => ?_
  refine andThen_rel _ htrans c3 _ _ ((update_command_frame env period ft c3).frame_mono ?_)
    fun _ c4 => ?_
  · rintro e ⟨he, _⟩
    cases e <;> simp_all [Event.is_command, Event.is_trajectory_update]
  · refine (update_output_frame env itrs c4).1.frame_mono ?_
    intro e he
    cases e <;> simp_all [Event.is_output, Event.is_trajectory_update]

/-- One cycle of `update` in lifecycle state Active, as far as the tracked trajectory goes. -/
theorem update_cycle_tracking (env : Env) (time period : Int) (c : Controller)
    (sampler : Trajectory) (hs : c.traj_external_point_ptr_ = some sampler)
    (hmsg : c.rtBuffers.input_traj_command ≠ none ∨ sampler.trajectory_msg = none) :
    ∃ calls,
      (update env LifecycleState.Active time period c).ctrl.events = c.events ++ calls ∧
      (update env LifecycleState.Active time period c).ctrl.rtBuffers.input_traj_command =
        c.rtBuffers.input_traj_command ∧
      (c.rtBuffers.input_traj_command = sampler.trajectory_msg →
        (update env LifecycleState.Active time period c).ctrl.traj_external_point_ptr_ =
          some sampler ∧
        (update env LifecycleState.Active time period c).ctrl.msgs = c.msgs ∧
        ∀ a, Event.trajectory_update a ∉ calls) ∧
      (c.rtBuffers.input_traj_command ≠ sampler.trajectory_msg →
        ∃ a, c.rtBuffers.input_traj_command = some a ∧
          (update env LifecycleState.Active time period c).ctrl.traj_external_point_ptr_ =
            some ⟨some a⟩ ∧
          (update env LifecycleState.Active time period c).ctrl.msgs =
            (fun b => if b = a then normalised env c a else c.msgs b) ∧
          Event.trajectory_update a ∈ calls) := by
  obtain ⟨hret, hbox, hsame, hdiff⟩ := update_sense_spec env c sampler hs hmsg
  have hrun : update env LifecycleState.Active time period c =
      (update_read env (update_sense env c).ctrl).andThen fun ft_values c2 =>
        update_from_reference env time period ft_values c2 := by
    rw [update_active_eq, andThen_some _ _ _ hret]
  obtain ⟨hfs, hfm, hfb, rest, hfe, hfq⟩ := update_rest_frame env time period (update_sense env c).ctrl
  by_cases heq : c.rtBuffers.input_traj_command = sampler.trajectory_msg
  · obtain ⟨h1, h2, h3⟩ := hsame heq
    refine ⟨Event.traj_buffer_read :: rest, ?_, ?_, fun _ => ⟨?_, ?_, ?_⟩, fun h => absurd heq h⟩
    · rw [hrun, hfe, h3]
      simp
    · rw [hrun, hfb, hbox]
    · rw [hrun, hfs, h1]
    · rw [hrun, hfm, h2]
    · intro a ha
      rcases List.mem_cons.mp ha with h | h
      · cases h
      · simpa [Event.is_trajectory_update] using hfq _ h
  · obtain ⟨a, h0, h1, h2, h3⟩ := hdiff heq
    refine ⟨Event.traj_buffer_read :: Event.trajectory_update a :: rest, ?_, ?_,
      fun h => absurd h heq, fun _ => ⟨a, h0, ?_, ?_, ?_⟩⟩
    · rw [hrun, hfe, h3]
      simp
    · rw [hrun, hfb, hbox]
    · rw [hrun, hfs, h1]
    · rw [hrun, hfm, h2]
    · simp

/-- C8: in a cycle of `update` in lifecycle state Active (the external sampler exists, and the
mailbox does not hold a null pointer while a message is tracked), the trajectory of the
sampler is replaced if and only if the message in the trajectory mailbox is another message
than the one the sampler tracks (pointer comparison). When it is replaced, the sampler
afterwards tracks the mailbox message, whose content is the original one completed and put in
the local joint order, and no other message is touched; when it is not replaced, the sampler
and all messages are untouched. The mailbox itself is left alone, and a second cycle on the
resulting state, that is without a new write, replaces nothing. -/
theorem update_replaces_iff_new_message (env : Env) (time period : Int) (c : Controller)
    (sampler : Trajectory) (hs : c.traj_external_point_ptr_ = some sampler)
    (hmsg : c.rtBuffers.input_traj_command ≠ none ∨ sampler.trajectory_msg = none) :
    ∃ calls,
      (update env LifecycleState.Active time period c).ctrl.events = c.events ++ calls ∧
      ((∃ a, Event.trajectory_update a ∈ calls) ↔
        c.rtBuffers.input_traj_command ≠ sampler.trajectory_msg) ∧
      (c.rtBuffers.input_traj_command ≠ sampler.trajectory_msg →
        ∃ a, c.rtBuffers.input_traj_command = some a ∧
          (update env LifecycleState.Active time period c).ctrl.traj_external_point_ptr_ =
            some ⟨some a⟩ ∧
          (update env LifecycleState.Active time period c).ctrl.msgs a =
            env.sort_to_local_joint_order
              (env.fill_partial_goal (c.msgs a) c.joint_names_
                c.joint_position_command_interface_ c.command_interfaces_)
              c.joint_names_ ∧
          ∀ b, b ≠ a →
            (update env LifecycleState.Active time period c).ctrl.msgs b = c.msgs b) ∧
      (c.rtBuffers.input_traj_command = sampler.trajectory_msg →
        (update env LifecycleState.Active time period c).ctrl.traj_external_point_ptr_ =
          some sampler ∧
        (update env LifecycleState.Active time period c).ctrl.msgs = c.msgs) ∧
      (update env LifecycleState.Active time period c).ctrl.rtBuffers.input_traj_command =
        c.rtBuffers.input_traj_command ∧
      ∀ time2 period2 : Int, ∃ calls2,
        (update env LifecycleState.Active time2 period2
            (update env LifecycleState.Active time period c).ctrl).ctrl.events =
          (update env LifecycleState.Active time period c).ctrl.events ++ calls2 ∧
        (∀ a, Event.trajectory_update a ∉ calls2) ∧
        (update env LifecycleState.Active time2 period2
            (update env LifecycleState.Active time period c).ctrl).ctrl.traj_external_point_ptr_ =
          (update env LifecycleState.Active time period c).ctrl.traj_external_point_ptr_ ∧
        (update env LifecycleState.Active time2 period2
            (update env LifecycleState.Active time period c).ctrl).ctrl.msgs =
          (update env LifecycleState.Active time period c).ctrl.msgs := by
  obtain ⟨calls, hev, hbox, hsame, hdiff⟩ := update_cycle_tracking env time period c sampler hs hmsg
  have htracks :
      (update env LifecycleState.Active time period c).ctrl.traj_external_point_ptr_ =
        some ⟨c.rtBuffers.input_traj_command⟩ := by
    by_cases heq : c.rtBuffers.input_traj_command = sampler.trajectory_msg
    · rw [(hsame heq).1, heq]
    · obtain ⟨a, h0, h1, _⟩ := hdiff heq
      rw [h1, h0]
  refine ⟨calls, hev, ⟨?_, ?_⟩, ?_, ?_, hbox, ?_⟩
  · rintro ⟨a, ha⟩ heq
    exact (hsame heq).2.2 a ha
  · intro hne
    obtain ⟨a, _, _, _, ha⟩ := hdiff hne
    exact ⟨a, ha⟩
  · intro hne
    obtain ⟨a, h0, h1, h2, _⟩ := hdiff hne
    refine ⟨a, h0, h1, ?_, ?_⟩
    · rw [h2]
      simp [normalised]
    · intro b hb
      rw [h2]
      simp [hb]
  · intro heq
    exact ⟨(hsame heq).1, (hsame heq).2.1⟩
  · intro time2 period2
    have hmsg2 :
        (update env LifecycleState.Active time period c).ctrl.rtBuffers.input_traj_command ≠ none ∨
        (⟨c.rtBuffers.input_traj_command⟩ : Trajectory).trajectory_msg = none := by
      rw [hbox]
      exact (em (c.rtBuffers.input_traj_command = none)).symm
    obtain ⟨calls2, hev2, _, hsame2, _⟩ := update_cycle_tracking env time2 period2
      (update env LifecycleState.Active time period c).ctrl ⟨c.rtBuffers.input_traj_command⟩
      htracks hmsg2
    obtain ⟨h1, h2, h3⟩ := hsame2 hbox
    exact ⟨calls2, hev2, h3, h1.trans htracks.symm, h2⟩

/-- C8 on the controller `Controller.running`: the sampler tracks nothing and message 7 waits
in the mailbox, so the cycle replaces the trajectory. -/
theorem update_replaces_iff_new_message_witness :
    Controller.running.traj_external_point_ptr_ = some ⟨none⟩ ∧
    Controller.running.rtBuffers.input_traj_command = some 7 ∧
    ∃ calls,
      (update Env.simple LifecycleState.Active 0 1 Controller.running).ctrl.events =
        Controller.running.events ++ calls ∧
      ((∃ a, Event.trajectory_update a ∈ calls) ↔
        Controller.running.rtBuffers.input_traj_command ≠ (⟨none⟩ : Trajectory).trajectory_msg) ∧
      (Controller.running.rtBuffers.input_traj_command ≠ (⟨none⟩ : Trajectory).trajectory_msg →
        ∃ a, Controller.running.rtBuffers.input_traj_command = some a ∧
          (update Env.simple LifecycleState.Active 0 1
            Controller.running).ctrl.traj_external_point_ptr_ = some ⟨some a⟩ ∧
          (update Env.simple LifecycleState.Active 0 1 Controller.running).ctrl.msgs a =
            Env.simple.sort_to_local_joint_order
              (Env.simple.fill_partial_goal (Controller.running.msgs a)
                Controller.running.joint_names_
                Controller.running.joint_position_command_interface_
                Controller.running.command_interfaces_)
              Controller.running.joint_names_ ∧
          ∀ b, b ≠ a →
            (update Env.simple LifecycleState.Active 0 1 Controller.running).ctrl.msgs b =
              Controller.running.msgs b) ∧
      (Controller.running.rtBuffers.input_traj_command = (⟨none⟩ : Trajectory).trajectory_msg →
        (update Env.simple LifecycleState.Active 0 1
          Controller.running).ctrl.traj_external_point_ptr_ = some ⟨none⟩ ∧
        (update Env.simple LifecycleState.Active 0 1 Controller.running).ctrl.msgs =
          Controller.running.msgs) ∧
      (update Env.simple LifecycleState.Active 0 1
          Controller.running).ctrl.rtBuffers.input_traj_command =
        Controller.running.rtBuffers.input_traj_command ∧
      ∀ time2 period2 : Int, ∃ calls2,
        (update Env.simple LifecycleState.Active time2 period2
            (update Env.simple LifecycleState.Active 0 1 Controller.running).ctrl).ctrl.events =
          (update Env.simple LifecycleState.Active 0 1 Controller.running).ctrl.events ++ calls2 ∧
        (∀ a, Event.trajectory_update a ∉ calls2) ∧
        (update Env.simple LifecycleState.Active time2 period2
            (update Env.simple LifecycleState.Active 0 1
              Controller.running).ctrl).ctrl.traj_external_point_ptr_ =
          (update Env.simple LifecycleState.Active 0 1
            Controller.running).ctrl.traj_external_point_ptr_ ∧
        (update Env.simple LifecycleState.Active time2 period2
            (update Env.simple LifecycleState.Active 0 1 Controller.running).ctrl).ctrl.msgs =
          (update Env.simple LifecycleState.Active 0 1 Controller.running).ctrl.msgs :=
  ⟨by decide, by decide,
   update_replaces_iff_new_message Env.simple 0 1 Controller.running ⟨none⟩ (by decide)
     (Or.inl (by decide))⟩

/-! ## `RLKinematics::update_robot_state` -/

/-- The copy loop, started at index `i` on a vector that already agrees with the input below
`i`, ends with the input. -/
theorem copy_positions_spec (input : List Scalar) :
    ∀ (k i : Nat) (positions : List Scalar), positions.length = input.length →
      i + k = input.length → positions.take i = input.take i →
      copy_positions input k i positions = some input := by
  intro k
  induction k with
  | zero =>
    intro i positions hlen hik htake
    have hi : i = input.length := by omega
    rw [hi, List.take_length] at htake
    rw [← hlen, List.take_length] at htake
    simp [copy_positions, htake]
  | succ k ih =>
    intro i positions hlen hik htake
    have hi : i < input.length := by omega
    have hget : input[i]? = some input[i] := List.getElem?_eq_getElem hi
    have hw : vec_write positions i input[i] = some (positions.set i input[i]) := by
      simp [vec_write, hlen, hi]
    simp only [copy_positions, hget, hw]
    apply ih
    · simp [hlen]
    · omega
    · rw [List.take_succ, List.take_succ]
      congr 1
      · rw [List.set_take, List.set_eq_of_length_le (by simp), htake]
      · simp [hlen, hi]

/-- C7: `update_robot_state` always returns; it returns false exactly when the number of input
positions differs from the number of position coordinates of the model. When it returns false
the model is unchanged (same configuration, no forward-position update); when it returns true
the configuration of the model is the list of input positions and one forward-position update
was made. -/
theorem update_robot_state_spec (model : Model) (current_joint_state : JointTrajectoryPoint) :
    ∃ result after, update_robot_state model current_joint_state = some (result, after) ∧
      (result = false ↔ current_joint_state.positions.length ≠ model.position.length) ∧
      (result = false → after = model) ∧
      (result = true → after.position = current_joint_state.positions ∧
        after.forward_position_calls = model.forward_position_calls + 1) := by
  by_cases h : current_joint_state.positions.length = model.position.length
  · have hc := copy_positions_spec current_joint_state.positions model.position.length 0
      model.position h.symm (by omega) (by simp)
    refine ⟨true, ⟨current_joint_state.positions, model.forward_position_calls + 1⟩, ?_, ?_, ?_, ?_⟩
    · simp [update_robot_state, h, hc]
    · simp [h]
    · intro hf
      cases hf
    · intro _
      exact ⟨rfl, rfl⟩
  · refine ⟨false, model, ?_, ?_, ?_, ?_⟩
    · simp [update_robot_state, h]
    · simp [h]
    · intro _
      rfl
    · intro hf
      cases hf

/-! ## `AdmittanceController::on_configure` -/

/-- The parameter chain of `on_configure`, with the admittance rule allocated: it runs through
and reports a fault exactly when a list or string parameter is empty or the admittance
parameters cannot be read; it does not touch the admittance rule. -/
theorem load_parameters_spec (env : Env) (p : NodeParameters) (c : Controller)
    (rule : AdmittanceRule) (hrule : c.admittance_ = some rule) :
    ∃ fault, (load_parameters env p c).ret = some fault ∧
      (fault = true ↔
        (p.joints = [] ∨ p.command_interfaces = [] ∨ p.state_interfaces = [] ∨
          p.ft_sensor_name = "" ∨ p.joint_limiter_type = "" ∨
          env.admittance_get_parameters rule = false)) ∧
      (load_parameters env p c).ctrl.admittance_ = some rule ∧
      (fault = false → (load_parameters env p c).ctrl.use_joint_commands_as_input_ =
        p.use_joint_commands_as_input) := by
  unfold load_parameters
  simp only
  split_ifs with h1 h2 h3 h4 h5
  · exact ⟨true, rfl, by simp [h1], hrule, by simp⟩
  · exact ⟨true, rfl, by simp [h2], hrule, by simp⟩
  · exact ⟨true, rfl, by simp [h3], hrule, by simp⟩
  · exact ⟨true, rfl, by simp [h4], hrule, by simp⟩
  · exact ⟨true, rfl, by simp [h5], hrule, by simp⟩
  · simp only [hrule]
    exact ⟨!env.admittance_get_parameters rule, by simp, by simp [h1, h2, h3, h4, h5],
      by simp, by simp⟩

/-- Lines 270-396 of `on_configure`, with the admittance rule allocated: ERROR exactly when
the joint input mode is off or the construction of the filter chain throws, and otherwise
what the base `on_configure` returns. -/
theorem configure_components_spec (env : Env) (p : NodeParameters) (c : Controller)
    (rule : AdmittanceRule) (hrule : c.admittance_ = some rule) :
    ((configure_components env p c).ret = some CallbackReturn.ERROR ↔
      (c.use_joint_commands_as_input_ = false ∨ env.filter_chain_throws = true)) ∧
    (¬ (c.use_joint_commands_as_input_ = false ∨ env.filter_chain_throws = true) →
      (configure_components env p c).ret = some LifecycleNodeInterface_on_configure) := by
  unfold configure_components
  cases hj : c.use_joint_commands_as_input_ <;> cases ht : env.filter_chain_throws <;>
    simp [hj, ht, hrule, LifecycleNodeInterface_on_configure]

/-- C10: with the admittance rule allocated (as `on_init` leaves it), `on_configure` returns
ERROR if and only if a configuration fault is present: the joints, command_interfaces or
state_interfaces list is empty, ft_sensor_name or joint_limiter_type is the empty string, the
admittance parameters cannot be read, use_joint_commands_as_input is false, or the
construction of the filter chain throws. For every other parameter set it returns what the
base `on_configure` returns, which is SUCCESS. -/
theorem on_configure_error_iff (env : Env) (p : NodeParameters) (c : Controller)
    (rule : AdmittanceRule) (hrule : c.admittance_ = some rule) :
    ((on_configure env p c).ret = some CallbackReturn.ERROR ↔
      (p.joints = [] ∨ p.command_interfaces = [] ∨ p.state_interfaces = [] ∨
        p.ft_sensor_name = "" ∨ p.joint_limiter_type = "" ∨
        env.admittance_get_parameters rule = false ∨
        p.use_joint_commands_as_input = false ∨ env.filter_chain_throws = true)) ∧
    (¬ (p.joints = [] ∨ p.command_interfaces = [] ∨ p.state_interfaces = [] ∨
        p.ft_sensor_name = "" ∨ p.joint_limiter_type = "" ∨
        env.admittance_get_parameters rule = false ∨
        p.use_joint_commands_as_input = false ∨ env.filter_chain_throws = true) →
      (on_configure env p c).ret = some LifecycleNodeInterface_on_configure ∧
      (on_configure env p c).ret = some CallbackReturn.SUCCESS) := by
  obtain ⟨fault, hret, hfault, hadm, huse⟩ := load_parameters_spec env p c rule hrule
  have hrun : on_configure env p c =
      if fault then ⟨some CallbackReturn.ERROR, (load_parameters env p c).ctrl⟩
      else configure_components env p (load_parameters env p c).ctrl := by
    unfold on_configure
    rw [andThen_some _ _ _ hret]
  cases fault with
  | true =>
    have hf := hfault.mp rfl
    have hE : (on_configure env p c).ret = some CallbackReturn.ERROR := by
      rw [hrun]
      rfl
    refine ⟨⟨fun _ => ?_, fun _ => hE⟩, fun hn => absurd ?_ hn⟩
    · rcases hf with h | h | h | h | h | h <;> simp [h]
    · rcases hf with h | h | h | h | h | h <;> simp [h]
  | false =>
    have hf : ¬ (p.joints = [] ∨ p.command_interfaces = [] ∨ p.state_interfaces = [] ∨
        p.ft_sensor_name = "" ∨ p.joint_limiter_type = "" ∨
        env.admittance_get_parameters rule = false) := fun h => by
      have := hfault.mpr h
      cases this
    obtain ⟨hiff, hok⟩ := configure_components_spec env p (load_parameters env p c).ctrl rule hadm
    rw [huse rfl] at hiff hok
    have hrun2 : on_configure env p c =
        configure_components env p (load_parameters env p c).ctrl := by
      rw [hrun]
      simp
    rw [hrun2]
    refine ⟨⟨fun h => ?_, fun h => ?_⟩, fun hn => ?_⟩
    · rcases hiff.mp h with h | h <;> simp [h]
    · apply hiff.mpr
      rcases h with h | h | h | h | h | h | h | h
      · exact absurd (Or.inl h) hf
      · exact absurd (Or.inr (Or.inl h)) hf
      · exact absurd (Or.inr (Or.inr (Or.inl h))) hf
      · exact absurd (Or.inr (Or.inr (Or.inr (Or.inl h)))) hf
      · exact absurd (Or.inr (Or.inr (Or.inr (Or.inr (Or.inl h))))) hf
      · exact absurd (Or.inr (Or.inr (Or.inr (Or.inr (Or.inr h))))) hf
      · exact Or.inl h
      · exact Or.inr h
    · have hn2 : ¬ (p.use_joint_commands_as_input = false ∨ env.filter_chain_throws = true) :=
        fun h => hn (by rcases h with h | h <;> simp [h])
      exact ⟨hok hn2, hok hn2⟩

/-- C10 on the parameters of a one-joint controller: no fault is present and `on_configure`
returns SUCCESS. -/
theorem on_configure_error_iff_witness :
    Controller.configured.admittance_ = some ⟨[Scalar.num 3], [Scalar.num 4]⟩ ∧
    (on_configure Env.simple NodeParameters.one_joint Controller.configured).ret =
      some CallbackReturn.SUCCESS :=
  ⟨by decide,
   ((on_configure_error_iff Env.simple NodeParameters.one_joint Controller.configured
      ⟨[Scalar.num 3], [Scalar.num 4]⟩ (by decide)).2 (by decide)).2⟩

/-! ## Reading the last command at activation -/

/-- The loop of `read_state_from_command_interfaces`, started on the field it has just
cleared, leaves the field empty however it ends. -/
theorem assign_from_commands_nil (ifaces : List LoanedInterface) (refs : List Nat) (k : Nat) :
    (assign_from_commands ifaces refs k 0 []).2 = [] := by
  cases k with
  | zero => rfl
  | succ k =>
    unfold assign_from_commands
    cases deref ifaces refs 0 <;> simp [vec_write]

theorem read_state_from_command_interfaces_positions (c : Controller)
    (output_state : JointTrajectoryPoint) :
    (read_state_from_command_interfaces c output_state).2.positions = [] := by
  unfold read_state_from_command_interfaces
  simp only
  split_ifs <;> exact assign_from_commands_nil _ _ _

/-- The read of the hardware state and the creation of the action server that end
`on_activate` leave `last_commanded_state_` alone. -/
theorem activate_read_hardware_keeps (c : Controller) :
    ((activate_read_hardware c).andThen fun _ c3 =>
      (⟨some CallbackReturn.SUCCESS,
        { c3 with events := c3.events ++ [Event.create_action_server] }⟩ :
        Outcome CallbackReturn)).ctrl.last_commanded_state_ = c.last_commanded_state_ := by
  unfold Outcome.andThen
  split <;> rfl

/-- C5, as stated, fails: the one-joint controller `Controller.configured` is activated with
NaN in its position command interface and a measured joint position of 5. The positions of
`last_commanded_state_` are emptied by `read_state_from_command_interfaces` and stay empty;
they are not the measured position, and the activation stops at the element write into the
emptied field. -/
theorem on_activate_not_seeded_from_hardware :
    (activate_assign Env.simple Controller.configured).ret = some () ∧
    deref (on_activate Env.simple Controller.configured).ctrl.command_interfaces_
      (on_activate Env.simple Controller.configured).ctrl.joint_position_command_interface_ 0 =
      some ⟨"joint1/position", Scalar.nan⟩ ∧
    deref (on_activate Env.simple Controller.configured).ctrl.state_interfaces_
      (on_activate Env.simple Controller.configured).ctrl.joint_position_state_interface_ 0 =
      some ⟨"joint1/position", Scalar.num 5⟩ ∧
    (on_activate Env.simple Controller.configured).ctrl.last_commanded_state_.positions = [] ∧
    (on_activate Env.simple Controller.configured).ctrl.last_commanded_state_.positions ≠
      [Scalar.num 5] ∧
    (on_activate Env.simple Controller.configured).ret = none := by
  decide

/-- C5, amended: `on_activate` does not seed `last_commanded_state_` from the measured
hardware state. Whenever it gets as far as the state reads, `last_commanded_state_` is what
`read_state_from_command_interfaces` made of it, and that function consults the command
interfaces only: other measured values give the same result. In particular, when a position
command interface holds NaN at activation, the positions of `last_commanded_state_` are left
empty: they neither hold the NaN nor are they reseeded with the measured joint positions. -/
theorem on_activate_last_commanded_from_commands (env : Env) (c : Controller)
    (h : (activate_assign env c).ret = some ()) :
    (on_activate env c).ctrl.last_commanded_state_ =
      (read_state_from_command_interfaces (activate_assign env c).ctrl
        (activate_assign env c).ctrl.last_commanded_state_).2 ∧
    (∀ (measured : List LoanedInterface) (output_state : JointTrajectoryPoint),
      read_state_from_command_interfaces
        { (activate_assign env c).ctrl with state_interfaces_ := measured } output_state =
      read_state_from_command_interfaces (activate_assign env c).ctrl output_state) ∧
    ((∃ i itf, deref (activate_assign env c).ctrl.command_interfaces_
          (activate_assign env c).ctrl.joint_position_command_interface_ i = some itf ∧
        itf.value.isnan = true) →
      (on_activate env c).ctrl.last_commanded_state_.positions = []) := by
  have hrun : on_activate env c =
      (activate_read_commands (activate_assign env c).ctrl).andThen fun _ c2 =>
        (activate_read_hardware c2).andThen fun _ c3 =>
        (⟨some CallbackReturn.SUCCESS,
          { c3 with events := c3.events ++ [Event.create_action_server] }⟩ :
          Outcome CallbackReturn) := by
    unfold on_activate
    rw [andThen_some _ _ _ h]
  have hkeep : (on_activate env c).ctrl.last_commanded_state_ =
      (read_state_from_command_interfaces (activate_assign env c).ctrl
        (activate_assign env c).ctrl.last_commanded_state_).2 := by
    rw [hrun]
    unfold Outcome.andThen
    split
    · rfl
    · exact activate_read_hardware_keeps _
  refine ⟨hkeep, fun _ _ => rfl, fun _ => ?_⟩
  rw [hkeep]
  exact read_state_from_command_interfaces_positions _ _

/-- The amended C5 on the one-joint controller `Controller.configured`, whose position command
interface holds NaN at activation. -/
theorem on_activate_last_commanded_from_commands_witness :
    (activate_assign Env.simple Controller.configured).ret = some () ∧
    (on_activate Env.simple Controller.configured).ctrl.last_commanded_state_.positions = [] :=
  ⟨by decide,
   (on_activate_last_commanded_from_commands Env.simple Controller.configured (by decide)).2.2
     ⟨0, ⟨"joint1/position", Scalar.nan⟩, by decide, by decide⟩⟩

/-- C6, the code at the failing input: with one position command interface,
`read_state_from_command_interfaces` clears `positions` and then assigns `positions[0]`, an
element of an empty vector, before it can test the value for NaN. The run stops at that
assignment, whether the interface holds NaN (the controller `Controller.configured` with its
interfaces assigned) or a number (`Controller.running`), and no output state is produced. -/
theorem read_state_from_command_interfaces_out_of_bounds :
    (activate_assign Env.simple Controller.configured).ctrl.joint_position_command_interface_
      = [0] ∧
    (activate_assign Env.simple Controller.configured).ctrl.command_interfaces_ =
      [⟨"joint1/position", Scalar.nan⟩, ⟨"joint1/velocity", Scalar.num 0⟩] ∧
    (read_state_from_command_interfaces (activate_assign Env.simple Controller.configured).ctrl
      (activate_assign Env.simple Controller.configured).ctrl.last_commanded_state_).1 = false ∧
    Controller.running.joint_position_command_interface_ = [0] ∧
    Controller.running.command_interfaces_ =
      [⟨"joint1/position", Scalar.num 1⟩, ⟨"joint1/velocity", Scalar.num 0⟩] ∧
    (read_state_from_command_interfaces Controller.running
      Controller.running.last_commanded_state_).1 = false := by
  decide

/-! ## Writing the desired state -/

/-- C9, the code at the failing input: the one-joint controller `Controller.running` has
position and velocity command interfaces and no acceleration command interface. `update`
writes the desired position 8 and velocity 9 to the two command interfaces and then, in the
third loop, indexes the empty list of acceleration command interfaces (and the empty
`state_desired.accelerations`) at 0: the write is out of bounds. -/
theorem update_write_out_of_bounds :
    Controller.running.joint_position_state_interface_.length = 1 ∧
    Controller.running.joint_acceleration_command_interface_ = [] ∧
    Controller.running.state_desired.accelerations = [] ∧
    (update_write Controller.running).ret = none ∧
    (update_write Controller.running).ctrl.command_interfaces_ =
      [⟨"joint1/position", Scalar.num 8⟩, ⟨"joint1/velocity", Scalar.num 9⟩] := by
  decide

/-! ## The tolerance flags -/

/-- The tolerance loop changes `abort` only before the last point and
`outside_goal_state_tolerance` only when not before it. -/
theorem tolerance_loop_flags (env : Env) (c : Controller) (before_last_point : Bool) :
    ∀ (k index : Nat) (flags result : Bool × Bool),
      tolerance_loop env c before_last_point k index flags = some result →
      (before_last_point = false → result.1 = flags.1) ∧
      (before_last_point = true → result.2 = flags.2) := by
  intro k
  induction k with
  | zero =>
    intro index flags result h
    simp only [tolerance_loop, Option.some.injEq] at h
    subst h
    exact ⟨fun _ => rfl, fun _ => rfl⟩
  | succ k ih =>
    intro index flags result h
    unfold tolerance_loop at h
    cases before_last_point with
    | true =>
      simp only [if_true] at h
      split at h
      · cases h
      · exact ⟨fun hf => (by cases hf), fun _ => (ih _ _ _ h).2 rfl⟩
    | false =>
      simp only [Bool.false_eq_true, if_false] at h
      split at h
      · cases h
      · exact ⟨fun _ => (ih _ _ _ h).1 rfl, fun hf => (by cases hf)⟩

/-- The tolerance loop runs through when both tolerance lists reach up to the last index. -/
theorem tolerance_loop_defined (env : Env) (c : Controller) (before_last_point : Bool) :
    ∀ (k index : Nat) (flags : Bool × Bool),
      index + k ≤ c.default_tolerances_.state_tolerance.length →
      index + k ≤ c.default_tolerances_.goal_state_tolerance.length →
      ∃ result, tolerance_loop env c before_last_point k index flags = some result := by
  intro k
  induction k with
  | zero =>
    intro index flags _ _
    exact ⟨flags, rfl⟩
  | succ k ih =>
    intro index flags h1 h2
    have hs : index < c.default_tolerances_.state_tolerance.length := by omega
    have hg : index < c.default_tolerances_.goal_state_tolerance.length := by omega
    unfold tolerance_loop
    cases before_last_point with
    | true =>
      simp only [if_true, List.getElem?_eq_getElem hs]
      exact ih _ _ (by omega) (by omega)
    | false =>
      simp only [Bool.false_eq_true, if_false, List.getElem?_eq_getElem hg]
      exact ih _ _ (by omega) (by omega)

theorem flagStep_refl (c : Controller) : FlagStep c c :=
  ⟨rfl, Grows.grows_refl _ _⟩

theorem flagStep_trans (c1 c2 c3 : Controller) (h12 : FlagStep c1 c2) (h23 : FlagStep c2 c3) :
    FlagStep c1 c3 :=
  ⟨h23.1.trans h12.1, h12.2.grows_trans (h12.1 ▸ h23.2)⟩

/-- A part of a run that keeps the number of joints and makes no call of
`perform_action_server_update` is a `FlagStep`. -/
theorem flagStep_of_grows {Q : Event → Prop} (c1 c2 : Controller)
    (hn : c2.num_joints_ = c1.num_joints_) (hg : Grows Q c1 c2)
    (hQ : ∀ e, Q e → ∀ b a o, e ≠ Event.action_server_update b a o) : FlagStep c1 c2 :=
  ⟨hn, hg.grows_mono fun e he b a o h => absurd h (hQ e he b a o)⟩

theorem update_trajectory_joints (env : Env) (sampler : Trajectory) (c : Controller) :
    (update_trajectory env sampler c).ctrl.num_joints_ = c.num_joints_ := by
  unfold update_trajectory
  split_ifs
  · split <;> rfl
  · rfl

theorem update_sense_joints (env : Env) (c : Controller) :
    (update_sense env c).ctrl.num_joints_ = c.num_joints_ := by
  unfold update_sense
  split
  · rfl
  · rename_i sampler _
    have h := update_trajectory_joints env sampler
      { c with traj_command_msg := c.rtBuffers.input_traj_command,
               events := c.events ++ [Event.traj_buffer_read] }
    unfold Outcome.andThen
    split
    · exact h
    · exact h

theorem update_read_joints (env : Env) (c : Controller) :
    (update_read env c).ctrl.num_joints_ = c.num_joints_ := by
  unfold update_read
  simp only
  split_ifs
  · rfl
  · split <;> rfl

theorem update_reference_joints (env : Env) (time : Int) (c : Controller) :
    (update_reference env time c).ctrl.num_joints_ = c.num_joints_ := by
  unfold update_reference
  simp only
  split <;> split_ifs <;> rfl

theorem update_command_joints (env : Env) (period : Int) (ft : Wrench) (c : Controller) :
    (update_command env period ft c).ctrl.num_joints_ = c.num_joints_ := by
  unfold update_command
  split
  · rfl
  · simp only
    split <;> rfl

theorem update_write_joints (c : Controller) :
    (update_write c).ctrl.num_joints_ = c.num_joints_ := by
  unfold update_write
  simp only
  split_ifs <;> rfl

theorem update_write_events (c : Controller) : (update_write c).ctrl.events = c.events := by
  unfold update_write
  simp only
  split_ifs <;> rfl

/-- The flags that lines 224-237 of `update` hand to `perform_action_server_update`. -/
theorem update_tolerances_flags (env : Env) (itrs : Option Nat × Option Nat) (c : Controller) :
    FlagStep c (update_tolerances env itrs c).ctrl := by
  unfold update_tolerances
  simp only
  split
  · exact flagStep_refl c
  · rename_i flags hloop
    refine ⟨rfl, [_], rfl, ?_⟩
    intro e he b a o heq
    rw [List.mem_singleton] at he
    subst he
    injection heq with hb ha ho
    subst hb ha ho
    obtain ⟨h1, h2⟩ := tolerance_loop_flags env c _ _ _ _ _ hloop
    cases hbefore : env.is_before_last_point c itrs.2 with
    | true =>
      have h := h2 hbefore
      simp only at h
      refine ⟨fun hh => ?_, fun _ => rfl, fun hh => ?_, fun hn => ?_⟩
      · rw [h] at hh
        exact Bool.false_ne_true hh.2
      · rw [h] at hh
        exact absurd hh Bool.false_ne_true
      · rw [hn] at hloop
        simp only [tolerance_loop, Option.some.injEq] at hloop
        rw [← hloop]
        exact ⟨rfl, rfl⟩
    | false =>
      have h := h1 hbefore
      simp only at h
      refine ⟨fun hh => ?_, fun hh => ?_, fun _ => rfl, fun hn => ?_⟩
      · rw [h] at hh
        exact Bool.false_ne_true hh.1
      · rw [h] at hh
        exact absurd hh Bool.false_ne_true
      · rw [hn] at hloop
        simp only [tolerance_loop, Option.some.injEq] at hloop
        rw [← hloop]
        exact ⟨rfl, rfl⟩

theorem update_publish_flags (env : Env) (c : Controller) :
    FlagStep c (update_publish env c).ctrl := by
  unfold update_publish
  simp only
  split
  · refine ⟨rfl, [_], rfl, ?_⟩
    intro e he b a o heq
    rw [List.mem_singleton] at he
    subst he
    cases heq
  · exact ⟨rfl, Grows.grows_refl _ _⟩

/-- Every cycle of `update` keeps the number of joints, and each of its calls of
`perform_action_server_update` hands over exclusive flags. -/
theorem update_flagStep (env : Env) (state : LifecycleState) (time period : Int)
    (c : Controller) : FlagStep c (update env state time period c).ctrl := by
  unfold update
  split_ifs
  · exact flagStep_refl c
  unfold update_pipeline
  refine andThen_rel FlagStep flagStep_trans c _ _ ?_ fun _ c1 => ?_
  · refine flagStep_of_grows _ _ (update_sense_joints env c) (update_sense_grows env c).1 ?_
    rintro e (rfl | he) b a o h
    · cases h
    · subst h
      simp [Event.is_trajectory_update] at he
  refine andThen_rel FlagStep flagStep_trans c1 _ _ ?_ fun ft c2 => ?_
  · refine flagStep_of_grows _ _ (update_read_joints env c1) (update_read_frame env c1).1.grows ?_
    rintro e rfl b a o h
    cases h
  unfold update_from_reference
  refine andThen_rel FlagStep flagStep_trans c2 _ _ ?_ fun itrs c3 => ?_
  · exact flagStep_of_grows _ _ (update_reference_joints env time c2)
      (update_reference_frame env time c2).1.grows fun _ h => h.elim
  refine andThen_rel FlagStep flagStep_trans c3 _ _ ?_ fun _ c4 => ?_
  · refine flagStep_of_grows _ _ (update_command_joints env period ft c3)
      (update_command_frame env period ft c3).grows ?_
    rintro e ⟨he, _⟩ b a o h
    subst h
    simp [Event.is_command] at he
  unfold update_output
  refine andThen_rel FlagStep flagStep_trans c4 _ _ ?_ fun _ c5 => ?_
  · exact ⟨update_write_joints c4, [], by simp [update_write_events c4], by simp⟩
  refine andThen_rel FlagStep flagStep_trans c5 _ _ (update_tolerances_flags env itrs c5)
    fun _ c6 => ?_
  refine andThen_rel FlagStep flagStep_trans c6 _ _ (update_publish_flags env c6) fun _ c7 => ?_
  exact flagStep_refl c7

/-- C18: in every cycle of `update`, each call of `perform_action_server_update` is handed
flags that are not both true; `abort` is true only when the sample is before the last
trajectory point and `outside_goal_state_tolerance` only when it is not; with zero joints both
are false. The flag `before_last_point` handed over is the one `is_before_last_point` reports
for the sampled segment, and with a tolerance entry for every joint the tolerance lines run
through and make exactly that one call. -/
theorem action_server_flags_exclusive (env : Env) :
    (∀ (state : LifecycleState) (time period : Int) (c : Controller),
      ∃ calls, (update env state time period c).ctrl.events = c.events ++ calls ∧
        ∀ before_last_point abort outside,
          Event.action_server_update before_last_point abort outside ∈ calls →
          ¬ (abort = true ∧ outside = true) ∧ (abort = true → before_last_point = true) ∧
          (outside = true → before_last_point = false) ∧
          (c.num_joints_ = 0 → abort = false ∧ outside = false)) ∧
    (∀ (itrs : Option Nat × Option Nat) (c : Controller),
      c.num_joints_ ≤ c.default_tolerances_.state_tolerance.length →
      c.num_joints_ ≤ c.default_tolerances_.goal_state_tolerance.length →
      ∃ abort outside, (update_tolerances env itrs c).ret = some () ∧
        (update_tolerances env itrs c).ctrl.events = c.events ++
          [Event.action_server_update (env.is_before_last_point c itrs.2) abort outside]) := by
  constructor
  · intro state time period c
    obtain ⟨_, calls, hev, hq⟩ := update_flagStep env state time period c
    exact ⟨calls, hev, fun b a o hmem => hq _ hmem b a o rfl⟩
  · intro itrs c h1 h2
    obtain ⟨flags, hloop⟩ := tolerance_loop_defined env c (env.is_before_last_point c itrs.2)
      c.num_joints_ 0 (false, false) (by omega) (by omega)
    refine ⟨flags.1, flags.2, ?_, ?_⟩ <;> simp [update_tolerances, hloop]

/-- C18 on the one-joint controller `Controller.running`, which has a tolerance entry for its
joint. -/
theorem action_server_flags_exclusive_witness :
    Controller.running.num_joints_ ≤
      Controller.running.default_tolerances_.state_tolerance.length ∧
    Controller.running.num_joints_ ≤
      Controller.running.default_tolerances_.goal_state_tolerance.length ∧
    ∃ abort outside, (update_tolerances Env.simple (none, some 0) Controller.running).ret =
        some () ∧
      (update_tolerances Env.simple (none, some 0) Controller.running).ctrl.events =
        Controller.running.events ++
          [Event.action_server_update
            (Env.simple.is_before_last_point Controller.running (some 0)) abort outside] :=
  ⟨by decide, by decide,
   (action_server_flags_exclusive Env.simple).2 (none, some 0) Controller.running
     (by decide) (by decide)⟩

/-! ## `AdmittanceController::on_error` -/

/-- C13: for every previous lifecycle state, `on_error` always returns, calls `reset()`
exactly once, returns SUCCESS (after which the lifecycle goes to Unconfigured) if and only if
`reset()` succeeds, and returns ERROR (after which it goes to Finalized) if and only if
`reset()` fails. -/
theorem on_error_follows_reset (env : Env) (previous_state : LifecycleState) (c : Controller) :
    ∃ r, (on_error env previous_state c).ret = some r ∧
      (on_error env previous_state c).ctrl.events = c.events ++ [Event.controller_reset] ∧
      (r = CallbackReturn.SUCCESS ↔ (env.reset c).1 = true) ∧
      (r = CallbackReturn.ERROR ↔ (env.reset c).1 = false) ∧
      (state_after_error r = LifecycleState.Unconfigured ↔ (env.reset c).1 = true) ∧
      (state_after_error r = LifecycleState.Finalized ↔ (env.reset c).1 = false) := by
  unfold on_error
  cases h : (env.reset c).1 with
  | true => exact ⟨CallbackReturn.SUCCESS, by simp [h], by simp [h], by simp, by simp,
      by simp [state_after_error], by simp [state_after_error]⟩
  | false => exact ⟨CallbackReturn.ERROR, by simp [h], by simp [h], by simp, by simp,
      by simp [state_after_error], by simp [state_after_error]⟩

/-! ## The limiter step without a limiter -/

/-- The three write loops of `update`: they leave `state_desired` alone and, when they run
through, the command interfaces are what the loops made of them with the fields of
`state_desired`. -/
theorem update_write_spec (c : Controller) :
    (update_write c).ctrl.state_desired = c.state_desired ∧
    ((update_write c).ret = some () →
      ∃ after_positions after_velocities,
        write_loop c.joint_position_command_interface_ c.state_desired.positions
          c.joint_position_state_interface_.length 0 c.command_interfaces_ =
          (true, after_positions) ∧
        write_loop c.joint_velocity_command_interface_ c.state_desired.velocities
          c.joint_position_state_interface_.length 0 after_positions =
          (true, after_velocities) ∧
        write_loop c.joint_acceleration_command_interface_ c.state_desired.accelerations
          c.joint_position_state_interface_.length 0 after_velocities =
          (true, (update_write c).ctrl.command_interfaces_)) := by
  unfold update_write
  simp only
  split_ifs with h1 h2 h3
  · exact ⟨rfl, fun h => by cases h⟩
  · exact ⟨rfl, fun h => by cases h⟩
  · exact ⟨rfl, fun h => by cases h⟩
  · refine ⟨rfl, fun _ =>
      ⟨(write_loop c.joint_position_command_interface_ c.state_desired.positions
          c.joint_position_state_interface_.length 0 c.command_interfaces_).2,
       (write_loop c.joint_velocity_command_interface_ c.state_desired.velocities
          c.joint_position_state_interface_.length 0
          (write_loop c.joint_position_command_interface_ c.state_desired.positions
            c.joint_position_state_interface_.length 0 c.command_interfaces_).2).2,
       ?_, ?_, ?_⟩⟩
    · exact Prod.ext (by simpa using h1) rfl
    · exact Prod.ext (by simpa using h2) rfl
    · exact Prod.ext (by simpa using h3) rfl

theorem update_tolerances_keeps (env : Env) (itrs : Option Nat × Option Nat) (c : Controller) :
    (update_tolerances env itrs c).ctrl.state_desired = c.state_desired ∧
    (update_tolerances env itrs c).ctrl.command_interfaces_ = c.command_interfaces_ := by
  unfold update_tolerances
  simp only
  split <;> exact ⟨rfl, rfl⟩

theorem update_publish_keeps (env : Env) (c : Controller) :
    (update_publish env c).ctrl.state_desired = c.state_desired ∧
    (update_publish env c).ctrl.command_interfaces_ = c.command_interfaces_ ∧
    (update_publish env c).ctrl.last_commanded_state_ = c.state_desired := by
  unfold update_publish
  simp only
  split <;> exact ⟨rfl, rfl, rfl⟩

/-- Lines 211-251 of `update` leave `state_desired` alone; when they run through, the
command interfaces hold what the three write loops wrote from `state_desired`, and
`last_commanded_state_` is `state_desired`. -/
theorem update_output_spec (env : Env) (itrs : Option Nat × Option Nat) (c : Controller) :
    (update_output env itrs c).ctrl.state_desired = c.state_desired ∧
    (∀ r, (update_output env itrs c).ret = some r →
      (update_output env itrs c).ctrl.last_commanded_state_ = c.state_desired ∧
      ∃ after_positions after_velocities,
        write_loop c.joint_position_command_interface_ c.state_desired.positions
          c.joint_position_state_interface_.length 0 c.command_interfaces_ =
          (true, after_positions) ∧
        write_loop c.joint_velocity_command_interface_ c.state_desired.velocities
          c.joint_position_state_interface_.length 0 after_positions =
          (true, after_velocities) ∧
        write_loop c.joint_acceleration_command_interface_ c.state_desired.accelerations
          c.joint_position_state_interface_.length 0 after_velocities =
          (true, (update_output env itrs c).ctrl.command_interfaces_)) := by
  obtain ⟨hwd, hww⟩ := update_write_spec c
  constructor
  · unfold update_output
    refine andThen_rel (fun c1 c2 => c2.state_desired = c1.state_desired)
      (fun _ _ _ h12 h23 => h23.trans h12) c _ _ hwd fun _ c5 => ?_
    refine andThen_rel (fun c1 c2 => c2.state_desired = c1.state_desired)
      (fun _ _ _ h12 h23 => h23.trans h12) c5 _ _ (update_tolerances_keeps env itrs c5).1
      fun _ c6 => ?_
    refine andThen_rel (fun c1 c2 => c2.state_desired = c1.state_desired)
      (fun _ _ _ h12 h23 => h23.trans h12) c6 _ _ (update_publish_keeps env c6).1
      fun _ c7 => rfl
  · intro r h
    unfold update_output at h ⊢
    obtain ⟨_, hw, e1⟩ := andThen_ret_some _ _ _ h
    rw [e1] at h ⊢
    obtain ⟨_, _, e2⟩ := andThen_ret_some _ _ _ h
    rw [e2] at h ⊢
    obtain ⟨_, _, e3⟩ := andThen_ret_some _ _ _ h
    rw [e3]
    obtain ⟨htd, htc⟩ := update_tolerances_keeps env itrs (update_write c).ctrl
    obtain ⟨_, hpc, hpl⟩ := update_publish_keeps env
      (update_tolerances env itrs (update_write c).ctrl).ctrl
    obtain ⟨i1, i2, w1, w2, w3⟩ := hww hw
    refine ⟨?_, i1, i2, w1, w2, ?_⟩
    · show (update_publish env
        (update_tolerances env itrs (update_write c).ctrl).ctrl).ctrl.last_commanded_state_ = _
      rw [hpl, htd, hwd]
    · show _ = (true, (update_publish env
        (update_tolerances env itrs (update_write c).ctrl).ctrl).ctrl.command_interfaces_)
      rw [hpc, htc]
      exact w3

/-- Settling the reference leaves the desired and current state, the limiter, the command
interfaces and the interface lists alone. -/
theorem update_reference_keeps (env : Env) (time : Int) (c : Controller) :
    (update_reference env time c).ctrl.state_desired = c.state_desired ∧
    (update_reference env time c).ctrl.joint_limiter_ = c.joint_limiter_ ∧
    (update_reference env time c).ctrl.command_interfaces_ = c.command_interfaces_ ∧
    (update_reference env time c).ctrl.joint_position_command_interface_ =
      c.joint_position_command_interface_ ∧
    (update_reference env time c).ctrl.joint_velocity_command_interface_ =
      c.joint_velocity_command_interface_ ∧
    (update_reference env time c).ctrl.joint_acceleration_command_interface_ =
      c.joint_acceleration_command_interface_ ∧
    (update_reference env time c).ctrl.joint_position_state_interface_ =
      c.joint_position_state_interface_ := by
  unfold update_reference
  simp only
  split <;> split_ifs <;> exact ⟨rfl, rfl, rfl, rfl, rfl, rfl, rfl⟩

/-- Lines 206-209 of `update` without a limiter: the desired state is what
`AdmittanceRule::update` produced, and the only call made is that one. -/
theorem update_command_no_limiter (env : Env) (period : Int) (ft : Wrench) (c : Controller)
    (rule : AdmittanceRule) (hrule : c.admittance_ = some rule) (hlim : c.joint_limiter_ = none) :
    (update_command env period ft c).ret = some () ∧
    (update_command env period ft c).ctrl.state_desired =
      (env.admittance_update rule c.state_current ft c.state_reference period
        c.state_desired).2 ∧
    (update_command env period ft c).ctrl.events = c.events ++
      [Event.admittance_update rule c.state_current ft c.state_reference period] ∧
    (update_command env period ft c).ctrl.command_interfaces_ = c.command_interfaces_ ∧
    (update_command env period ft c).ctrl.joint_position_command_interface_ =
      c.joint_position_command_interface_ ∧
    (update_command env period ft c).ctrl.joint_velocity_command_interface_ =
      c.joint_velocity_command_interface_ ∧
    (update_command env period ft c).ctrl.joint_acceleration_command_interface_ =
      c.joint_acceleration_command_interface_ ∧
    (update_command env period ft c).ctrl.joint_position_state_interface_ =
      c.joint_position_state_interface_ := by
  have hrun : update_command env period ft c = ⟨some (), { c with
      admittance_ := some (env.admittance_update rule c.state_current ft c.state_reference
        period c.state_desired).fst,
      state_desired := (env.admittance_update rule c.state_current ft c.state_reference
        period c.state_desired).snd,
      events := c.events ++
        [Event.admittance_update rule c.state_current ft c.state_reference period] }⟩ := by
    simp [update_command, hrule, hlim]
  rw [hrun]
  exact ⟨rfl, rfl, rfl, rfl, rfl, rfl, rfl, rfl⟩

/-- C12: with no joint limiter (`joint_limiter_` absent), in a cycle of `update` from line 186
on (points non-empty, admittance rule allocated), the limiter step does nothing: no call of
`enforce_limits` is made, `state_desired` stays exactly what `AdmittanceRule::update`
produced, and when the cycle runs through, that state is what `last_commanded_state_` holds
and what the three write loops wrote, field by field, to the command interfaces. -/
theorem update_without_limiter (env : Env) (time period : Int) (ft_values : Wrench)
    (c : Controller) (rule : AdmittanceRule)
    (hpts : c.pre_admittance_point.points ≠ []) (hrule : c.admittance_ = some rule)
    (hlim : c.joint_limiter_ = none) :
    ∃ reference desired rest,
      desired = (env.admittance_update rule c.state_current ft_values reference period
        c.state_desired).2 ∧
      (update_from_reference env time period ft_values c).ctrl.events = c.events ++
        Event.admittance_update rule c.state_current ft_values reference period :: rest ∧
      Event.enforce_limits ∉ rest ∧
      (update_from_reference env time period ft_values c).ctrl.state_desired = desired ∧
      (∀ r, (update_from_reference env time period ft_values c).ret = some r →
        (update_from_reference env time period ft_values c).ctrl.last_commanded_state_ =
          desired ∧
        ∃ after_positions after_velocities,
          write_loop c.joint_position_command_interface_ desired.positions
            c.joint_position_state_interface_.length 0 c.command_interfaces_ =
            (true, after_positions) ∧
          write_loop c.joint_velocity_command_interface_ desired.velocities
            c.joint_position_state_interface_.length 0 after_positions =
            (true, after_velocities) ∧
          write_loop c.joint_acceleration_command_interface_ desired.accelerations
            c.joint_position_state_interface_.length 0 after_velocities =
            (true, (update_from_reference env time period ft_values c).ctrl.command_interfaces_))
      := by
  obtain ⟨hret, href, _, _, hadm, hcur, hev⟩ := update_reference_spec env time c hpts
  obtain ⟨hkd, hkl, hki, hkp, hkv, hka, hks⟩ := update_reference_keeps env time c
  obtain ⟨hcret, hcd, hcev, hci, hcp, hcv, hca, hcs⟩ :=
    update_command_no_limiter env period ft_values (update_reference env time c).ctrl rule
      (hadm.trans hrule) (hkl.trans hlim)
  have hrun : update_from_reference env time period ft_values c =
      update_output env
        ((update_sample env time c).start_segment_itr, (update_sample env time c).end_segment_itr)
        (update_command env period ft_values (update_reference env time c).ctrl).ctrl := by
    unfold update_from_reference
    rw [andThen_some _ _ _ hret, andThen_some _ _ _ hcret]
  obtain ⟨hod, hor⟩ := update_output_spec env
    ((update_sample env time c).start_segment_itr, (update_sample env time c).end_segment_itr)
    (update_command env period ft_values (update_reference env time c).ctrl).ctrl
  obtain ⟨rest, hoev, horest⟩ := (update_output_frame env
    ((update_sample env time c).start_segment_itr, (update_sample env time c).end_segment_itr)
    (update_command env period ft_values (update_reference env time c).ctrl).ctrl).1.grows
  rw [hcd, hcur, hkd] at hod
  refine ⟨(update_reference env time c).ctrl.state_reference, _, rest, rfl, ?_, ?_, ?_, ?_⟩
  · rw [hrun, hoev, hcev, hev, hcur]
    simp
  · intro hmem
    have := horest _ hmem
    simp [Event.is_output] at this
  · rw [hrun]
    exact hod
  · intro r hr
    rw [hrun] at hr ⊢
    obtain ⟨hl, i1, i2, w1, w2, w3⟩ := hor r hr
    rw [hcd, hcur, hkd] at hl w1 w2 w3
    rw [hcp, hkp, hcs, hks, hci, hki] at w1
    rw [hcv, hkv, hcs, hks] at w2
    rw [hca, hka, hcs, hks] at w3
    exact ⟨hl, i1, i2, w1, w2, w3⟩

/-- C12 on the controller `Controller.full`, which has no limiter: the cycle from line 186 on
runs through and the command interfaces end up holding the desired position 2, velocity 3 and
acceleration 4. -/
theorem update_without_limiter_witness :
    (update_from_reference Env.simple 0 1 [] Controller.full).ret = some return_type.OK ∧
    (update_from_reference Env.simple 0 1 [] Controller.full).ctrl.command_interfaces_ =
      [⟨"joint1/position", Scalar.num 2⟩, ⟨"joint1/velocity", Scalar.num 3⟩,
       ⟨"joint1/acceleration", Scalar.num 4⟩] ∧
    ∃ reference desired rest,
      desired = (Env.simple.admittance_update ⟨[Scalar.num 3], [Scalar.num 4]⟩
        Controller.full.state_current [] reference 1 Controller.full.state_desired).2 ∧
      (update_from_reference Env.simple 0 1 [] Controller.full).ctrl.events =
        Controller.full.events ++
          Event.admittance_update ⟨[Scalar.num 3], [Scalar.num 4]⟩
            Controller.full.state_current [] reference 1 :: rest ∧
      Event.enforce_limits ∉ rest ∧
      (update_from_reference Env.simple 0 1 [] Controller.full).ctrl.state_desired = desired ∧
      (∀ r, (update_from_reference Env.simple 0 1 [] Controller.full).ret = some r →
        (update_from_reference Env.simple 0 1 [] Controller.full).ctrl.last_commanded_state_ =
          desired ∧
        ∃ after_positions after_velocities,
          write_loop Controller.full.joint_position_command_interface_ desired.positions
            Controller.full.joint_position_state_interface_.length 0
            Controller.full.command_interfaces_ = (true, after_positions) ∧
          write_loop Controller.full.joint_velocity_command_interface_ desired.velocities
            Controller.full.joint_position_state_interface_.length 0 after_positions =
            (true, after_velocities) ∧
          write_loop Controller.full.joint_acceleration_command_interface_
            desired.accelerations Controller.full.joint_position_state_interface_.length 0
            after_velocities =
            (true,
              (update_from_reference Env.simple 0 1 [] Controller.full).ctrl.command_interfaces_))
      :=
  ⟨by decide, by decide,
   update_without_limiter Env.simple 0 1 [] Controller.full ⟨[Scalar.num 3], [Scalar.num 4]⟩
     (by decide) (by decide) (by decide)⟩

/-! ## `AdmittanceController::on_cleanup` -/

/-- Once `on_activate` has stored the home message and created the home sampler,
`on_cleanup` returns SUCCESS, hands the home message to the home sampler and makes that
sampler the active one. -/
theorem on_cleanup_after_activation (c : Controller) (sampler : Trajectory) (a : Nat)
    (hs : c.traj_home_point_ptr_ = some sampler) (hm : c.traj_msg_home_ptr_ = some a) :
    (on_cleanup c).ret = some CallbackReturn.SUCCESS ∧
    (on_cleanup c).ctrl.traj_home_point_ptr_ = some ⟨some a⟩ ∧
    (on_cleanup c).ctrl.traj_point_active_ptr_ = ActivePtr.home ∧
    (on_cleanup c).ctrl.msgs = c.msgs := by
  simp [on_cleanup, hs, hm]

/-- C11, the code at the failing input: a controller is initialised and configured
(`on_configure` returns SUCCESS, the state is Inactive) and `on_cleanup` is called without any
activation in between. `traj_home_point_ptr_` and `traj_msg_home_ptr_` are still null, and
`on_cleanup` dereferences `traj_home_point_ptr_`: it does not return SUCCESS. -/
theorem on_cleanup_without_activation :
    (on_configure Env.simple NodeParameters.one_joint Controller.initialized).ret =
      some CallbackReturn.SUCCESS ∧
    (on_configure Env.simple NodeParameters.one_joint
      Controller.initialized).ctrl.traj_home_point_ptr_ = none ∧
    (on_configure Env.simple NodeParameters.one_joint
      Controller.initialized).ctrl.traj_msg_home_ptr_ = none ∧
    (on_cleanup (on_configure Env.simple NodeParameters.one_joint
      Controller.initialized).ctrl).ret = none := by
  decide

/-! ## `AdmittanceController::read_state_from_hardware` -/

/-- C14, the code at the failing input: with one position state interface (holding 5),
`read_state_from_hardware` clears `positions` and then assigns `positions[0]`, an element of
an empty vector. The run stops at that assignment with `positions` empty, not of length 1,
whatever the field held before (here one entry). -/
theorem read_state_from_hardware_out_of_bounds :
    Controller.running.joint_position_state_interface_ = [0] ∧
    deref Controller.running.state_interfaces_ Controller.running.joint_position_state_interface_ 0
      = some ⟨"joint1/position", Scalar.num 5⟩ ∧
    Controller.running.state_current.positions.length = 1 ∧
    (read_state_from_hardware Controller.running Controller.running.state_current).1 = false ∧
    (read_state_from_hardware Controller.running Controller.running.state_current).2.positions
      = [] := by
  decide

/-! ## The per-type interface lists of `on_activate` -/

/-- C15, the code at the failing input: one joint, `command_interfaces = ["velocity"]`.
`command_interface_configuration` asks for `joint1/velocity`, which is loaned at index 0, and
`on_activate` puts it in the list of its first configured type, which is the position list:
`joint_position_command_interface_` holds the velocity interface and
`joint_velocity_command_interface_` is empty. -/
theorem velocity_interface_in_position_list :
    (on_configure Env.simple NodeParameters.velocity_only Controller.initialized).ret =
      some CallbackReturn.SUCCESS ∧
    command_interface_configuration
      (on_configure Env.simple NodeParameters.velocity_only Controller.initialized).ctrl =
      ["joint1/velocity"] ∧
    (activate_command_interfaces (loaned Env.simple
      (on_configure Env.simple NodeParameters.velocity_only
        Controller.initialized).ctrl)).ret = some () ∧
    (activate_command_interfaces (loaned Env.simple
      (on_configure Env.simple NodeParameters.velocity_only
        Controller.initialized).ctrl)).ctrl.joint_position_command_interface_ = [0] ∧
    deref (loaned Env.simple
        (on_configure Env.simple NodeParameters.velocity_only
          Controller.initialized).ctrl).command_interfaces_ [0] 0 =
      some ⟨"joint1/velocity", Scalar.num 0⟩ ∧
    (activate_command_interfaces (loaned Env.simple
      (on_configure Env.simple NodeParameters.velocity_only
        Controller.initialized).ctrl)).ctrl.joint_velocity_command_interface_ = [] := by
  decide

/-- C16, the code at the failing input: one joint with position and velocity state interfaces
and the force/torque sensor `ft_sensor`. `state_interface_configuration` asks for the six
sensor interfaces first and the joint interfaces after them, so `joint1/position` is loaned at
index 6; `on_activate` stores `state_interfaces_[0 * num_joints_ + 0]`, the sensor interface
`ft_sensor/force.x`, as the position interface of the joint, and `ft_sensor/force.y` as its
velocity interface. With four state interface types, the fourth indexes the array of three
per-type lists out of range and the activation stops there. -/
theorem sensor_interface_in_joint_list :
    state_interface_configuration Env.simple Controller.configured =
      some ["ft_sensor/force.x", "ft_sensor/force.y", "ft_sensor/force.z",
        "ft_sensor/torque.x", "ft_sensor/torque.y", "ft_sensor/torque.z",
        "joint1/position", "joint1/velocity"] ∧
    (activate_state_interfaces (loaned Env.simple Controller.configured)).ret = some () ∧
    (activate_state_interfaces
      (loaned Env.simple Controller.configured)).ctrl.joint_position_state_interface_ = [0] ∧
    (activate_state_interfaces
      (loaned Env.simple Controller.configured)).ctrl.joint_velocity_state_interface_ = [1] ∧
    deref (loaned Env.simple Controller.configured).state_interfaces_ [0] 0 =
      some ⟨"ft_sensor/force.x", Scalar.num 0⟩ ∧
    deref (loaned Env.simple Controller.configured).state_interfaces_ [1] 0 =
      some ⟨"ft_sensor/force.y", Scalar.num 0⟩ ∧
    (on_configure Env.simple NodeParameters.four_state_types Controller.initialized).ret =
      some CallbackReturn.SUCCESS ∧
    (activate_state_interfaces (loaned Env.simple
      (on_configure Env.simple NodeParameters.four_state_types
        Controller.initialized).ctrl)).ret = none := by
  decide

/-- C17, the code at the failing input: the one-joint controller `Controller.configured` is
activated, deactivated and activated again. After the first `on_activate` each non-empty
per-type list has one entry, as many as there are joints, and `pre_admittance_point.points`
has one entry. Neither `on_deactivate` nor `on_activate` empties them, so the second
`on_activate` pushes the same interfaces and another point: the lists then have two entries
for one joint and `pre_admittance_point.points` has two. -/
theorem lists_grow_on_reactivation :
    Controller.configured.num_joints_ = 1 ∧
    (on_activate Env.simple Controller.configured).ctrl.joint_position_state_interface_ = [0] ∧
    (on_activate Env.simple Controller.configured).ctrl.joint_position_command_interface_ = [0] ∧
    (on_activate Env.simple Controller.configured).ctrl.pre_admittance_point.points.length = 1 ∧
    (on_deactivate (on_activate Env.simple Controller.configured).ctrl).ret =
      some CallbackReturn.SUCCESS ∧
    (on_activate Env.simple (on_deactivate
      (on_activate Env.simple Controller.configured).ctrl).ctrl).ctrl.num_joints_ = 1 ∧
    (on_activate Env.simple (on_deactivate
      (on_activate Env.simple Controller.configured).ctrl).ctrl).ctrl.joint_position_state_interface_
      = [0, 0] ∧
    (on_activate Env.simple (on_deactivate
      (on_activate Env.simple Controller.configured).ctrl).ctrl).ctrl.joint_velocity_state_interface_
      = [1, 1] ∧
    (on_activate Env.simple (on_deactivate
      (on_activate Env.simple Controller.configured).ctrl).ctrl).ctrl.joint_position_command_interface_
      = [0, 0] ∧
    (on_activate Env.simple (on_deactivate
      (on_activate Env.simple Controller.configured).ctrl).ctrl).ctrl.pre_admittance_point.points.length
      = 2 := by
  decide

end AdmittanceController
